import Mathlib

/-!
Verification of the hozo-sentinel job-execution core against its
natural-language specification.

Shallow embedding conventions used throughout this development:

* Wall-clock time is a natural number of seconds.  The clock advances
  only at explicit sleep calls (socket probes, SSH commands and state
  queries are modelled as instantaneous); a polling loop therefore sees
  time t = sum of the sleeps executed so far.
* External effects (socket connections, remote hdparm queries, syncoid
  invocations, remote shutdown commands) are modelled as oracles: pure
  functions from the invocation index to the outcome the external world
  produces for that invocation.  An oracle value with an exception
  constructor models the Python call raising.
* Python truthiness of optional strings (None and the empty string are
  both falsy) is modelled explicitly, because hozo.core.job relies on it.
* Logging, timestamps and the in-memory log-line capture of run_job are
  elided: no claim in scope depends on them.
-/

namespace Hozo

deriving instance DecidableEq for Except

/-- Python truthiness of an `Optional[str]` value: `None` and `""` are
falsy, every other string is truthy.  Used by `_run_job_inner` both for
the `if job.backup_device:` gate and the `if last_error:` check. -/
def pyTruthy : Option String → Bool
  | none => false
  | some s => !(s == "")

/-! ## hozo.core.ssh — wait_for_ssh -/

/-- Outcome of one `socket.create_connection` attempt in
`hozo.core.ssh.wait_for_ssh`.  `refused` models `OSError`,
`timedOut` models `socket.timeout`; both are caught by the prober. -/
inductive ConnOutcome
  | connected
  | refused
  | timedOut
deriving DecidableEq, Repr

/-- One execution of the `while time.monotonic() < deadline` loop of
`wait_for_ssh`, started with `remaining` seconds until the deadline and
with `conn n` giving the outcome of the n-th connection attempt
(0-based).  Returns `(reachable, elapsed, sleeps)` where `elapsed` is
the modelled time consumed and `sleeps` is the list of sleep durations
executed after failed attempts.  The source sleeps
`poll_interval` when `remaining > poll_interval` and `max 0 remaining`
otherwise, i.e. `min poll remaining` since `remaining > 0` inside the
loop.
The recursion is driven structurally by a `fuel` argument bounding the
number of loop iterations; since every iteration consumes
`min poll remaining ≥ 1` seconds when `poll ≥ 1`, starting with
`fuel = remaining` the fuel can never run out before the deadline
does.  (With `poll = 0` the source loop would never terminate against
a never-connecting host; the model stops early in that
hypothesis-excluded case so that the function is total.) -/
def waitForSshGo (conn : Nat → ConnOutcome) (poll : Nat) :
    Nat → Nat → Nat → Bool × Nat × List Nat
  | 0, _, _ => (false, 0, [])
  | fuel + 1, r, n =>
    if r = 0 then (false, 0, [])
    else
      match conn n with
      | .connected => (true, 0, [])
      | _ =>
        let s := min poll r
        if s = 0 then (false, 0, [])
        else
          let rest := waitForSshGo conn poll fuel (r - s) (n + 1)
          (rest.1, s + rest.2.1, s :: rest.2.2)

/-- `hozo.core.ssh.wait_for_ssh host port timeout poll_interval`, with
the connection oracle abstracted.  `timeout` seconds are available from
the deadline computed on entry; the iteration-count fuel is
initialised to the same budget. -/
def waitForSsh (conn : Nat → ConnOutcome) (poll timeout : Nat) :
    Bool × Nat × List Nat :=
  waitForSshGo conn poll timeout timeout 0

/-! ## hozo.core.disk -/

/-- The drive states `remote_drive_state` can report, per its contract:
the parsed hdparm output `active/idle`, `standby`, `sleeping`, the
optimistic fallback `unknown` (no parseable hdparm line, or the SSH
query raised), and `hdparm_unavailable` (hdparm is absent remotely). -/
inductive DriveState
  | activeIdle
  | standby
  | sleeping
  | unknown
  | hdparmUnavailable
deriving DecidableEq, Repr

/-- The string `remote_drive_state` returns for each reported state. -/
def DriveState.str : DriveState → String
  | .activeIdle => "active/idle"
  | .standby => "standby"
  | .sleeping => "sleeping"
  | .unknown => "unknown"
  | .hdparmUnavailable => "hdparm_unavailable"

/-- `hozo.core.disk.is_remote_drive_active` on an already-queried state
string: membership in the tuple
`("active/idle", "active", "idle", "unknown", "hdparm_unavailable")`. -/
def isRemoteDriveActiveStr (s : String) : Bool :=
  ["active/idle", "active", "idle", "unknown", "hdparm_unavailable"].contains s

/-- `is_remote_drive_active` with the state query oracle already
resolved to a `DriveState`. -/
def isRemoteDriveActive (s : DriveState) : Bool :=
  isRemoteDriveActiveStr s.str

/-- One execution of the polling loop of
`hozo.core.disk.wait_for_remote_drive_active`, with `states n` the
drive state reported by the n-th poll (0-based), started with
`remaining` seconds until the deadline.  Returns
`(ready, spinUpPolls)` where `spinUpPolls` lists the poll indices at
which `remote_spin_up_drive` was invoked.  Mirrors the source: on each
poll, if the state is active-ish return true; otherwise, if this is the
first poll and `spinUp` is set, issue the wake read and clear the
first-poll flag; then sleep `min poll remaining` (the source's
`min(poll_interval, max(0, remaining))` with `remaining > 0` in the
loop).  The recursion is fuel-driven exactly as in `waitForSshGo`:
started with `fuel = remaining`, the fuel outlasts the deadline
whenever `poll ≥ 1` (and `poll = 0`, which never terminates in the
source, is cut off). -/
def waitDriveGo (states : Nat → DriveState) (spinUp : Bool) (poll : Nat) :
    Nat → Nat → Nat → Bool → Bool × List Nat
  | 0, _, _, _ => (false, [])
  | fuel + 1, r, n, firstPoll =>
    if r = 0 then (false, [])
    else if isRemoteDriveActive (states n) then (true, [])
    else
      let fired := firstPoll && spinUp
      let s := min poll r
      if s = 0 then (false, if fired then [n] else [])
      else
        let rest := waitDriveGo states spinUp poll fuel (r - s) (n + 1) false
        (rest.1, (if fired then [n] else []) ++ rest.2)

/-- `hozo.core.disk.wait_for_remote_drive_active` with the state query
oracle abstracted: polling starts with the full `timeout` budget (also
as the iteration-count fuel) and with the first-poll flag set. -/
def waitForRemoteDriveActive (states : Nat → DriveState) (spinUp : Bool)
    (poll timeout : Nat) : Bool × List Nat :=
  waitDriveGo states spinUp poll timeout timeout 0 true

/-! ## hozo.core.backup — syncoid command construction -/

/-- The `ssh_opts_parts` list built by `hozo.core.backup.run_syncoid`
(push direction): always `-o StrictHostKeyChecking=no`, plus
`-i <key>` when the SSH key is truthy — the source gates the option
with `if ssh_key:`, so `None` and the empty string both add nothing.
`run_syncoid` takes no SSH port parameter, so no port option can ever
appear here. -/
def syncoidSshOptsParts (ssh_key : Option String) : List String :=
  ["-o StrictHostKeyChecking=no"] ++
    (match ssh_key with
     | some k => if k = "" then [] else [s!"-i {k}"]
     | none => [])

/-- The argument vector built by `run_syncoid` (push direction), in
source order: binary, `--recursive` flag, `--no-privilege-elevation`
flag, `--sshcipher aes128-ctr`, `--sshoption` with the joined option
parts, then source dataset and `user@host:dataset` target. -/
def runSyncoidCmd (source_dataset target_host target_dataset : String)
    (recursive : Bool) (ssh_user : String) (ssh_key : Option String)
    (no_privilege_elevation : Bool) (syncoid_bin : String) : List String :=
  [syncoid_bin] ++
    (if recursive then ["--recursive"] else []) ++
    (if no_privilege_elevation then ["--no-privilege-elevation"] else []) ++
    ["--sshcipher", "aes128-ctr"] ++
    ["--sshoption", String.intercalate " " (syncoidSshOptsParts ssh_key)] ++
    [source_dataset, s!"{ssh_user}@{target_host}:{target_dataset}"]

/-- The `ssh_opts_parts` list built by
`hozo.core.backup.run_restore_syncoid` (pull direction): the base
option, `-i <key>` when the SSH key is truthy (the source's
`if ssh_key:` — `None` and the empty string add nothing), and
`-p <port>` when the SSH port is not 22. -/
def restoreSshOptsParts (ssh_key : Option String) (ssh_port : Int) :
    List String :=
  ["-o StrictHostKeyChecking=no"] ++
    (match ssh_key with
     | some k => if k = "" then [] else [s!"-i {k}"]
     | none => []) ++
    (if ssh_port ≠ 22 then [s!"-p {ssh_port}"] else [])

/-- The argument vector built by `run_restore_syncoid` (pull
direction), in source order: binary, `--recursive`,
`--no-privilege-elevation`, `--force-delete`, cipher, SSH options,
then `user@host:dataset` remote source and the local destination. -/
def runRestoreSyncoidCmd (source_dataset target_host target_dataset : String)
    (recursive : Bool) (ssh_user : String) (ssh_key : Option String)
    (ssh_port : Int) (no_privilege_elevation : Bool) (force_delete : Bool)
    (syncoid_bin : String) : List String :=
  [syncoid_bin] ++
    (if recursive then ["--recursive"] else []) ++
    (if no_privilege_elevation then ["--no-privilege-elevation"] else []) ++
    (if force_delete then ["--force-delete"] else []) ++
    ["--sshcipher", "aes128-ctr"] ++
    ["--sshoption", String.intercalate " " (restoreSshOptsParts ssh_key ssh_port)] ++
    [s!"{ssh_user}@{target_host}:{target_dataset}", source_dataset]

/-! ## hozo.core.job — data model -/

/-- `hozo.core.job.BackupJob`, restricted to the fields the job-runner
state machine reads.  `retries` is an `Int` because the Python field is
an unconstrained int (the default is 3).  Elided fields
(`source_dataset`, `mac_address`, `ssh_user`, `ssh_key`, `ssh_port`,
`recursive`, `retry_delay`, `wol_broadcast`,
`no_privilege_elevation`, `description`, `schedule`) are only passed
through to oracles and do not influence control flow. -/
structure BackupJob where
  name : String
  target_host : String
  shutdown_after : Bool := true
  timeout : Int := 120
  retries : Int := 3
  backup_device : Option String := none
  disk_spinup_timeout : Int := 90
deriving DecidableEq, Repr

/-- `hozo.core.job.JobResult`, restricted to the fields the claims in
scope observe.  Field defaults mirror the dataclass defaults:
`error = None`, `snapshots_after = []`, `attempts = 1`.  The
timestamps and `log_lines` are elided. -/
structure JobResult where
  job_name : String
  success : Bool
  error : Option String := none
  snapshots_after : List String := []
  attempts : Int := 1
deriving DecidableEq, Repr

/-- Outcome of one `run_syncoid` invocation inside the retry loop of
`_run_job_inner`.  `ok` carries the combined output; `fails` carries
`str(exc)` together with the exception's stdout/stderr (empty for
non-`SyncoidError` exceptions, which carry no captured output). -/
inductive SyncoidOutcome
  | ok (output : String)
  | fails (msg stdout stderr : String)
deriving DecidableEq, Repr

/-- Outcome of the remote `shutdown -h now` command issued by
`_maybe_shutdown`: either `run_command` returns an exit code (with
stderr), or it raises. -/
inductive ShutdownOutcome
  | exits (code : Int) (err : String)
  | raises (msg : String)
deriving DecidableEq, Repr

/-- Observable effect of `_maybe_shutdown`: skipped entirely
(`shutdown_after` unset), completed quietly (exit code 0 or the
connection-dropped sentinel -1), completed with a warning log (any
other exit code), or an exception swallowed at debug level.  The
Python function returns `None` in every case. -/
inductive ShutdownEffect
  | notAttempted
  | quiet
  | warned
  | swallowed
deriving DecidableEq, Repr

/-- Uncaught exceptions the modelled `_run_job_inner` can raise.
`unboundLocalAttempt` is Python's `UnboundLocalError` from reading the
loop variable `attempt` in the success-path `JobResult` construction
when the retry loop executed zero iterations. -/
inductive RunErr
  | unboundLocalAttempt
deriving DecidableEq, Repr

/-- The external world of one `_run_job_inner` execution: the
reachability-wait outcome, the disk-wait outcome, the outcome of the
n-th syncoid attempt (indexed by the 1-based attempt number), the
snapshot listing, and the remote shutdown outcome. -/
structure Env where
  sshUp : Bool
  driveReady : Bool
  syncoid : Nat → SyncoidOutcome
  snapshots : List String
  shutdown : ShutdownOutcome

/-- Everything one `_run_job_inner` execution produces that the claims
observe: the returned `JobResult` (or the uncaught exception), the
number of syncoid invocations, and the shutdown step's effect. -/
structure RunOutcome where
  result : Except RunErr JobResult
  syncoidCalls : Nat
  shutdownEffect : ShutdownEffect
deriving Repr

/-! ## hozo.core.job — behaviour -/

/-- `hozo.core.job._maybe_shutdown`: skipped unless `shutdown_after`;
otherwise classifies the remote command outcome.  Exit codes 0 and -1
produce no warning; any other code logs a warning; an exception is
caught and logged at debug level.  Nothing propagates to the caller. -/
def maybeShutdown (job : BackupJob) (o : ShutdownOutcome) : ShutdownEffect :=
  if !job.shutdown_after then .notAttempted
  else
    match o with
    | .exits code _ => if code = 0 ∨ code = -1 then .quiet else .warned
    | .raises _ => .swallowed

/-- The `for attempt in range(1, job.retries + 1)` retry loop of
`_run_job_inner`, folded over the list of attempt numbers.  Carries the
Python locals `last_error` and `attempt` (the latter as an `Option`,
`none` meaning unbound).  On a successful syncoid call the loop sets
`last_error = None` and breaks; on an exception it records `str(exc)`
and continues.  Returns `(last_error, attempt, calls)` with `calls`
the number of syncoid invocations made. -/
def replLoopGo (step : Nat → SyncoidOutcome) (lastError : Option String)
    (attemptVar : Option Nat) : List Nat → Option String × Option Nat × Nat
  | [] => (lastError, attemptVar, 0)
  | a :: rest =>
    match step a with
    | .ok _ => (none, some a, 1)
    | .fails msg _ _ =>
      let r := replLoopGo step (some msg) (some a) rest
      (r.1, r.2.1, r.2.2 + 1)

/-- The retry loop entered with `last_error = None` and `attempt`
unbound, iterating over attempt numbers `1, …, retries` (the empty
list when `retries ≤ 0`, as in Python's `range(1, retries + 1)`). -/
def replicationLoop (step : Nat → SyncoidOutcome) (retries : Int) :
    Option String × Option Nat × Nat :=
  replLoopGo step none none (List.range' 1 retries.toNat)

/-- `hozo.core.job._run_job_inner` as a function of the job and the
external world.  Mirrors the source's control flow:

1. wake + fixed grace sleep (no observable effect in scope);
2. `wait_for_ssh` — on `False`, return a failure result whose error
   names the host and the timeout, leaving `snapshots_after` and
   `attempts` at their dataclass defaults;
3. if `job.backup_device` is truthy, `wait_for_remote_drive_active` —
   on `False`, return a failure result naming device and host;
4. the syncoid retry loop;
5. `if last_error:` (Python truthiness) — failure result with
   `error = last_error`, `attempts = job.retries`, after attempting
   shutdown;
6. otherwise list snapshots, attempt shutdown, and build the success
   result with `attempts = attempt` — raising `UnboundLocalError`
   when the loop never ran. -/
def runJobInner (job : BackupJob) (env : Env) : RunOutcome :=
  if !env.sshUp then
    { result := .ok
        { job_name := job.name
          success := false
          error := some s!"SSH did not become available on {job.target_host} within {job.timeout}s" }
      syncoidCalls := 0
      shutdownEffect := .notAttempted }
  else if pyTruthy job.backup_device && !env.driveReady then
    let dev := job.backup_device.getD ""
    { result := .ok
        { job_name := job.name
          success := false
          error := some s!"Drive {dev} on {job.target_host} did not spin up within {job.disk_spinup_timeout}s" }
      syncoidCalls := 0
      shutdownEffect := .notAttempted }
  else
    let r := replicationLoop env.syncoid job.retries
    let lastError := r.1
    let attemptVar := r.2.1
    let calls := r.2.2
    if pyTruthy lastError then
      { result := .ok
          { job_name := job.name
            success := false
            error := lastError
            attempts := job.retries }
        syncoidCalls := calls
        shutdownEffect := maybeShutdown job env.shutdown }
    else
      let snapshots := env.snapshots
      let eff := maybeShutdown job env.shutdown
      match attemptVar with
      | none =>
        { result := .error .unboundLocalAttempt
          syncoidCalls := calls
          shutdownEffect := eff }
      | some a =>
        { result := .ok
            { job_name := job.name
              success := true
              snapshots_after := snapshots
              attempts := (a : Int) }
          syncoidCalls := calls
          shutdownEffect := eff }

/-! ## hozo.scheduler.runner — schedule parsing

The schedule grammar is the pair of anchored, case-insensitive regular
expressions of the source (applied after `str.strip`):

  _WEEKLY_RE:  weekly \s+ (monday|…|sunday) \s+ (dd):(dd)  (full match)
  _DAILY_RE:   daily \s+ (dd):(dd)                         (full match)

The model implements the same grammar as a character-list parser over
the lower-cased, stripped input (ASCII; the claims' inputs are ASCII).
-/

/-- The whitespace characters of Python's `\s` for ASCII input. -/
def pyIsSpace (c : Char) : Bool :=
  c = ' ' || c = '\t' || c = '\n' || c = '\r' || c = '\x0b' || c = '\x0c'

/-- ASCII lower-casing of one character, modelling the effect of the
regexes' `re.IGNORECASE` on the ASCII keywords and day names of the
grammar (digits and punctuation are untouched). -/
def asciiLower (c : Char) : Char :=
  if 'A' ≤ c && c ≤ 'Z' then Char.ofNat (c.toNat + 32) else c

/-- Python `str.strip()` (ASCII whitespace). -/
def pyStrip (s : String) : String :=
  ⟨((s.data.dropWhile pyIsSpace).reverse.dropWhile pyIsSpace).reverse⟩

/-- Match a literal character sequence at the head of the input,
returning the rest. -/
def matchChars : List Char → List Char → Option (List Char)
  | [], rest => some rest
  | _ :: _, [] => none
  | p :: ps, c :: cs => if c = p then matchChars ps cs else none

/-- Consume one-or-more whitespace characters (the regexes' pattern
between tokens), returning the rest. -/
def dropSpaces1 : List Char → Option (List Char)
  | [] => none
  | c :: rest => if pyIsSpace c then some (rest.dropWhile pyIsSpace) else none

/-- Numeric value of a decimal digit character, `none` otherwise. -/
def digitVal (c : Char) : Option Nat :=
  if c.isDigit then some (c.toNat - '0'.toNat) else none

/-- Match the regexes' trailing anchored time group
`(dd):(dd)$`: exactly two digits, a colon, two digits, end of input.
Returns the `int(...)` of both groups. -/
def parseHHMMEnd : List Char → Option (Nat × Nat)
  | [a, b, ':', c, d] => do
    let va ← digitVal a
    let vb ← digitVal b
    let vc ← digitVal c
    let vd ← digitVal d
    pure (10 * va + vb, 10 * vc + vd)
  | _ => none

/-- Day-of-week values as passed to the cron trigger via `_DOW_MAP`. -/
inductive Weekday
  | mon | tue | wed | thu | fri | sat | sun
deriving DecidableEq, Repr

/-- The weekday alternation of `_WEEKLY_RE` together with `_DOW_MAP`:
each lower-case day word and the trigger value it maps to. -/
def dayWords : List (List Char × Weekday) :=
  [("monday".data, .mon), ("tuesday".data, .tue), ("wednesday".data, .wed),
   ("thursday".data, .thu), ("friday".data, .fri), ("saturday".data, .sat),
   ("sunday".data, .sun)]

/-- Match one of the weekday words at the head of the input. -/
def matchDay : List (List Char × Weekday) → List Char →
    Option (Weekday × List Char)
  | [], _ => none
  | (w, d) :: rest, s =>
    match matchChars w s with
    | some r => some (d, r)
    | none => matchDay rest s

/-- `_WEEKLY_RE` on a lower-cased, stripped input:
`weekly \s+ <day> \s+ (dd):(dd)` anchored at both ends. -/
def parseWeekly (s : List Char) : Option (Weekday × Nat × Nat) := do
  let r1 ← matchChars "weekly".data s
  let r2 ← dropSpaces1 r1
  let (d, r3) ← matchDay dayWords r2
  let r4 ← dropSpaces1 r3
  let (h, m) ← parseHHMMEnd r4
  pure (d, h, m)

/-- `_DAILY_RE` on a lower-cased, stripped input:
`daily \s+ (dd):(dd)` anchored at both ends. -/
def parseDaily (s : List Char) : Option (Nat × Nat) := do
  let r1 ← matchChars "daily".data s
  let r2 ← dropSpaces1 r1
  parseHHMMEnd r2

/-- The two cron trigger shapes `parse_schedule` can build. -/
inductive Trigger
  | daily (hour minute : Nat)
  | weekly (dow : Weekday) (hour minute : Nat)
deriving DecidableEq, Repr

/-- Modelled from the APScheduler library contract: the `CronTrigger`
constructor validates its field ranges and raises `ValueError` for an
hour outside 0–23 or a minute outside 0–59. -/
def cronTrigger (dow : Option Weekday) (hour minute : Nat) :
    Except String Trigger :=
  if hour ≤ 23 ∧ minute ≤ 59 then
    match dow with
    | some d => .ok (.weekly d hour minute)
    | none => .ok (.daily hour minute)
  else .error "ValueError: cron field out of range"

/-- `hozo.scheduler.runner.parse_schedule`: try the weekly regex, then
the daily regex, on the stripped input (case-insensitively, modelled
by lower-casing); any other string raises `ValueError`.  The `Except`
error carries the `ValueError` message. -/
def parseSchedule (schedule_str : String) : Except String Trigger :=
  let cs := (pyStrip schedule_str).data.map asciiLower
  match parseWeekly cs with
  | some (d, h, m) => cronTrigger (some d) h m
  | none =>
    match parseDaily cs with
    | some (h, m) => cronTrigger none h m
    | none =>
      .error s!"Unrecognized schedule format: {schedule_str}. Expected daily HH:MM or weekly Day HH:MM."

/-! ## hozo.scheduler.runner — HozoScheduler registration -/

/-- A trigger as accepted by `HozoScheduler.schedule_job` (any
APScheduler trigger: the cron triggers `parse_schedule` builds, a
one-shot date trigger, or an interval trigger). -/
inductive APTrigger
  | cron (t : Trigger)
  | date (fireAt : Nat)
  | interval (seconds : Nat)
deriving DecidableEq, Repr

/-- Modelled from the APScheduler library contract used by both
registration sites (`add_job(..., id=key, replace_existing=True)`):
if a job with `key` exists in the registration table its trigger is
replaced in place, otherwise a new registration is appended. -/
def addJobReplace (table : List (String × APTrigger)) (key : String)
    (trig : APTrigger) : List (String × APTrigger) :=
  if table.any (fun e => e.1 == key) then
    table.map (fun e => if e.1 == key then (key, trig) else e)
  else table ++ [(key, trig)]

/-- The scheduler state the claims observe: the held job list
`self._jobs` and the APScheduler registration table. -/
structure SchedState where
  jobs : List BackupJob
  table : List (String × APTrigger)
deriving Repr

/-- `HozoScheduler.schedule_job`: key is the explicit `job_id` if
truthy, else `job.name` (Python `job_id or job.name`); the job is
appended to the held list if absent; the trigger is registered with
`replace_existing=True`. -/
def scheduleJob (st : SchedState) (job : BackupJob) (trig : APTrigger)
    (job_id : Option String) : SchedState :=
  let jid :=
    match job_id with
    | some s => if s = "" then job.name else s
    | none => job.name
  { jobs := if job ∈ st.jobs then st.jobs else st.jobs ++ [job]
    table := addJobReplace st.table jid trig }

/-- `HozoScheduler.load_jobs_from_config`, on a config modelled as the
zipped list of (converted job, raw schedule string) pairs: the held
job list is replaced wholesale by the converted jobs; then each pair
with a truthy, parseable schedule string is registered under the job's
name with `replace_existing=True`, and every other pair is skipped. -/
def loadJobsFromConfig (st : SchedState) (cfg : List (BackupJob × String)) :
    SchedState :=
  { jobs := cfg.map (fun p => p.1)
    table := cfg.foldl
      (fun tb p =>
        if p.2 = "" then tb
        else
          match parseSchedule p.2 with
          | .error _ => tb
          | .ok trig => addJobReplace tb p.1.name (.cron trig))
      st.table }

/-- Canonical two-digit rendering of the grammar's `HH` / `MM` tokens
(for values below 100). -/
def twoDigits (n : Nat) : String :=
  ⟨[Nat.digitChar (n / 10), Nat.digitChar (n % 10)]⟩

/-- The canonical `daily HH:MM` schedule string for a given time. -/
def dailyScheduleStr (h m : Nat) : String :=
  "daily " ++ twoDigits h ++ ":" ++ twoDigits m

/-- The capitalised day names of the schedule grammar. -/
def dayNameCap : Weekday → String
  | .mon => "Monday"
  | .tue => "Tuesday"
  | .wed => "Wednesday"
  | .thu => "Thursday"
  | .fri => "Friday"
  | .sat => "Saturday"
  | .sun => "Sunday"

/-- The canonical `weekly <Day> HH:MM` schedule string. -/
def weeklyScheduleStr (d : Weekday) (h m : Nat) : String :=
  "weekly " ++ dayNameCap d ++ " " ++ twoDigits h ++ ":" ++ twoDigits m

/-!
# Theorems

Helper lemmas first, then one theorem per claim (with the witnesses and
counterexamples the claims need).
-/

theorem replLoopGo_allFail (step : Nat → SyncoidOutcome) :
    ∀ (cnt : Nat), 1 ≤ cnt →
    ∀ (s : Nat), (∀ i, i < cnt → ∃ m so se, step (s + i) = .fails m so se) →
    ∀ le av, ∃ m so se, step (s + (cnt - 1)) = .fails m so se ∧
      replLoopGo step le av (List.range' s cnt) = (some m, some (s + (cnt - 1)), cnt) := by
  intro cnt
  induction cnt with
  | zero => omega
  | succ c ih =>
    intro _ s hfail le av
    obtain ⟨m0, so0, se0, h0⟩ := hfail 0 (by omega)
    rw [show s + 0 = s from rfl] at h0
    rcases Nat.eq_zero_or_pos c with hc | hc
    · subst hc
      refine ⟨m0, so0, se0, by simpa using h0, ?_⟩
      show replLoopGo step le av (s :: List.range' (s + 1) 0) = _
      simp [replLoopGo, h0]
    · obtain ⟨m, so, se, hm, hrec⟩ :=
        ih hc (s + 1) (fun i hi => by
          obtain ⟨m', so', se', h'⟩ := hfail (i + 1) (by omega)
          exact ⟨m', so', se', by rw [show s + 1 + i = s + (i + 1) by omega]; exact h'⟩)
          (some m0) (some s)
      have hidx : s + 1 + (c - 1) = s + (c + 1 - 1) := by omega
      rw [hidx] at hm hrec
      refine ⟨m, so, se, hm, ?_⟩
      show replLoopGo step le av (s :: List.range' (s + 1) c) = _
      simp [replLoopGo, h0, hrec]

theorem replLoopGo_firstOk (step : Nat → SyncoidOutcome) :
    ∀ (i : Nat), ∀ (s cnt : Nat), i < cnt →
    (∀ j, j < i → ∃ m so se, step (s + j) = .fails m so se) →
    (∃ out, step (s + i) = .ok out) →
    ∀ le av, replLoopGo step le av (List.range' s cnt) = (none, some (s + i), i + 1) := by
  intro i
  induction i with
  | zero =>
    intro s cnt hcnt _ hok le av
    obtain ⟨out, hout⟩ := hok
    rw [show s + 0 = s from rfl] at hout
    obtain ⟨c, rfl⟩ : ∃ c, cnt = c + 1 := ⟨cnt - 1, by omega⟩
    show replLoopGo step le av (s :: List.range' (s + 1) c) = _
    simp [replLoopGo, hout]
  | succ i ih =>
    intro s cnt hcnt hfail hok le av
    obtain ⟨m0, so0, se0, h0⟩ := hfail 0 (by omega)
    rw [show s + 0 = s from rfl] at h0
    obtain ⟨c, rfl⟩ : ∃ c, cnt = c + 1 := ⟨cnt - 1, by omega⟩
    have hrec := ih (s + 1) c (by omega)
      (fun j hj => by
        obtain ⟨m', so', se', h'⟩ := hfail (j + 1) (by omega)
        exact ⟨m', so', se', by rw [show s + 1 + j = s + (j + 1) by omega]; exact h'⟩)
      (by
        obtain ⟨out, hout⟩ := hok
        exact ⟨out, by rw [show s + 1 + i = s + (i + 1) by omega]; exact hout⟩)
      (some m0) (some s)
    rw [show s + 1 + i = s + (i + 1) by omega] at hrec
    show replLoopGo step le av (s :: List.range' (s + 1) c) = _
    simp [replLoopGo, h0, hrec]

theorem runJobInner_successPath (job : BackupJob) (env : Env) (k : Nat)
    (hssh : env.sshUp = true)
    (hgate : (pyTruthy job.backup_device && !env.driveReady) = false)
    (h1k : 1 ≤ k) (hkr : (k : Int) ≤ job.retries)
    (hfails : ∀ j, 1 ≤ j → j < k → ∃ m so se, env.syncoid j = .fails m so se)
    (hok : ∃ out, env.syncoid k = .ok out) :
    runJobInner job env =
      { result := .ok
          { job_name := job.name, success := true,
            snapshots_after := env.snapshots, attempts := (k : Int) }
        syncoidCalls := k
        shutdownEffect := maybeShutdown job env.shutdown } := by
  have hloop := replLoopGo_firstOk env.syncoid (k - 1) 1 job.retries.toNat
    (by omega)
    (fun j hj => by
      obtain ⟨m, so, se, hm⟩ := hfails (j + 1) (by omega) (by omega)
      exact ⟨m, so, se, by rw [show 1 + j = j + 1 by omega]; exact hm⟩)
    (by
      obtain ⟨out, hout⟩ := hok
      exact ⟨out, by rw [show 1 + (k - 1) = k by omega]; exact hout⟩)
    none none
  rw [show 1 + (k - 1) = k by omega, show k - 1 + 1 = k by omega] at hloop
  simp only [runJobInner, replicationLoop, hssh, hgate, hloop, Bool.not_true,
    Bool.false_eq_true, if_false]
  rfl

theorem runJobInner_allFailPath (job : BackupJob) (env : Env) (N : Nat)
    (m so se : String)
    (hssh : env.sshUp = true)
    (hgate : (pyTruthy job.backup_device && !env.driveReady) = false)
    (hretries : job.retries = (N : Int)) (hN : 1 ≤ N)
    (hfails : ∀ j, 1 ≤ j → j ≤ N → ∃ m' so' se', env.syncoid j = .fails m' so' se')
    (hlast : env.syncoid N = .fails m so se) (hm : m ≠ "") :
    runJobInner job env =
      { result := .ok
          { job_name := job.name, success := false, error := some m,
            attempts := job.retries }
        syncoidCalls := N
        shutdownEffect := maybeShutdown job env.shutdown } := by
  obtain ⟨m', so', se', hm', hloop⟩ := replLoopGo_allFail env.syncoid N hN 1
    (fun i hi => by
      obtain ⟨a, b, c, hj⟩ := hfails (i + 1) (by omega) (by omega)
      exact ⟨a, b, c, by rw [show 1 + i = i + 1 by omega]; exact hj⟩)
    none none
  rw [show 1 + (N - 1) = N by omega] at hm' hloop
  rw [hlast] at hm'
  obtain ⟨rfl, -, -⟩ : m' = m ∧ so' = so ∧ se' = se := by
    have := hm'.symm
    simpa [SyncoidOutcome.fails.injEq] using this
  have htoNat : job.retries.toNat = N := by omega
  have hpm : pyTruthy (some m') = true := by
    simp [pyTruthy, hm]
  simp only [runJobInner, replicationLoop, hssh, hgate, htoNat, hloop,
    Bool.not_true, Bool.false_eq_true, if_false, hpm, if_true]

theorem runJobInner_sshDown (job : BackupJob) (env : Env)
    (h : env.sshUp = false) :
    runJobInner job env =
      { result := .ok
          { job_name := job.name, success := false,
            error := some s!"SSH did not become available on {job.target_host} within {job.timeout}s" }
        syncoidCalls := 0
        shutdownEffect := .notAttempted } := by
  simp [runJobInner, h]

/-- Claim C1, counterexample.  The claim as stated is false: a job whose
replication step fails on every invocation (here, with `retries = 2`, an
exception whose `str()` is the empty string on both attempts — the oracle
is the constant function `.fails "" "" ""`) makes `_run_job_inner` fall
through the `if last_error:` truthiness check, because the empty error
string is falsy; the run returns `success = true` (with `attempts = 2`)
instead of the claimed `success = false` with the last error message. -/
theorem C1_counterexample :
    runJobInner { name := "j", target_host := "h", retries := 2 }
      { sshUp := true, driveReady := true, syncoid := fun _ => .fails "" "" "",
        snapshots := [], shutdown := .exits 0 "" } =
      { result := .ok
          { job_name := "j", success := true, snapshots_after := [], attempts := 2 }
        syncoidCalls := 2
        shutdownEffect := .quiet } := by
  rfl

/-- Claim C1 (amended): for every job whose replication step fails on the
first k-1 invocations and succeeds on the k-th with k ≤ retries, run_job
invokes the replication step exactly k times and returns a JobResult
with success=true and attempts=k; for every job whose replication step
fails on all invocations *with the last attempt's error message
nonempty*, run_job (with retries=N ≥ 1) invokes the replication step
exactly N times and returns success=false with attempts=N and error
equal to the last attempt's error message.  (The nonemptiness proviso is
forced by `C1_counterexample`: the source tests `if last_error:`, so an
empty error message is treated like no error.) -/
theorem C1_retry_semantics :
    (∀ (job : BackupJob) (env : Env) (k : Nat),
      env.sshUp = true →
      (pyTruthy job.backup_device && !env.driveReady) = false →
      1 ≤ k → (k : Int) ≤ job.retries →
      (∀ j, 1 ≤ j → j < k → ∃ m so se, env.syncoid j = .fails m so se) →
      (∃ out, env.syncoid k = .ok out) →
      (runJobInner job env).syncoidCalls = k ∧
      (runJobInner job env).result = .ok
        { job_name := job.name, success := true,
          snapshots_after := env.snapshots, attempts := (k : Int) }) ∧
    (∀ (job : BackupJob) (env : Env) (N : Nat) (m so se : String),
      env.sshUp = true →
      (pyTruthy job.backup_device && !env.driveReady) = false →
      job.retries = (N : Int) → 1 ≤ N →
      (∀ j, 1 ≤ j → j ≤ N → ∃ m' so' se', env.syncoid j = .fails m' so' se') →
      env.syncoid N = .fails m so se → m ≠ "" →
      (runJobInner job env).syncoidCalls = N ∧
      (runJobInner job env).result = .ok
        { job_name := job.name, success := false, error := some m,
          attempts := (N : Int) }) := by
  constructor
  · intro job env k hssh hgate h1k hkr hfails hok
    rw [runJobInner_successPath job env k hssh hgate h1k hkr hfails hok]
    exact ⟨rfl, rfl⟩
  · intro job env N m so se hssh hgate hretries hN hfails hlast hm
    rw [runJobInner_allFailPath job env N m so se hssh hgate hretries hN hfails hlast hm]
    exact ⟨rfl, by rw [hretries]⟩

/-- Claim C1, witness: with `retries = 3` and a step that fails once
(message "x") then succeeds, the run makes exactly 2 calls and returns
success with attempts = 2; with `retries = 2` and a step that always
fails with the nonempty message "boom", the run makes exactly 2 calls
and returns failure with attempts = 2 and error "boom". -/
theorem C1_retry_semantics_witness :
    ((runJobInner { name := "j", target_host := "h", retries := 3 }
        { sshUp := true, driveReady := true,
          syncoid := fun n => if n = 1 then .fails "x" "" "" else .ok "out",
          snapshots := ["s@1"], shutdown := .exits 0 "" }).syncoidCalls = 2 ∧
      (runJobInner { name := "j", target_host := "h", retries := 3 }
        { sshUp := true, driveReady := true,
          syncoid := fun n => if n = 1 then .fails "x" "" "" else .ok "out",
          snapshots := ["s@1"], shutdown := .exits 0 "" }).result = .ok
        { job_name := "j", success := true, snapshots_after := ["s@1"],
          attempts := ((2 : Nat) : Int) }) ∧
    ((runJobInner { name := "j", target_host := "h", retries := 2 }
        { sshUp := true, driveReady := true,
          syncoid := fun _ => .fails "boom" "" "",
          snapshots := [], shutdown := .exits 0 "" }).syncoidCalls = 2 ∧
      (runJobInner { name := "j", target_host := "h", retries := 2 }
        { sshUp := true, driveReady := true,
          syncoid := fun _ => .fails "boom" "" "",
          snapshots := [], shutdown := .exits 0 "" }).result = .ok
        { job_name := "j", success := false, error := some "boom",
          attempts := ((2 : Nat) : Int) }) := by
  constructor
  · exact C1_retry_semantics.1
      { name := "j", target_host := "h", retries := 3 }
      { sshUp := true, driveReady := true,
        syncoid := fun n => if n = 1 then .fails "x" "" "" else .ok "out",
        snapshots := ["s@1"], shutdown := .exits 0 "" }
      2 rfl rfl (by omega) (by decide)
      (fun j h1 h2 => by
        have hj : j = 1 := by omega
        subst hj
        exact ⟨"x", "", "", rfl⟩)
      ⟨"out", rfl⟩
  · exact C1_retry_semantics.2
      { name := "j", target_host := "h", retries := 2 }
      { sshUp := true, driveReady := true,
        syncoid := fun _ => .fails "boom" "" "",
        snapshots := [], shutdown := .exits 0 "" }
      2 "boom" "" "" rfl rfl (by decide) (by omega)
      (fun j _ _ => ⟨"boom", "", "", rfl⟩)
      rfl (by decide)

/-- Claim C2: for every job with shutdown_after set whose replication
succeeded, the remote-shutdown step never changes the result — exit
code 0 or the sentinel -1 (connection dropped) completes quietly, any
other nonzero exit code is only logged as a warning, and an exception
raised by the shutdown command is swallowed — and run_job still returns
success=true in every one of these cases. -/
theorem C2_shutdown_never_flips_success :
    ∀ (job : BackupJob) (env : Env) (k : Nat),
      job.shutdown_after = true →
      env.sshUp = true →
      (pyTruthy job.backup_device && !env.driveReady) = false →
      1 ≤ k → (k : Int) ≤ job.retries →
      (∀ j, 1 ≤ j → j < k → ∃ m so se, env.syncoid j = .fails m so se) →
      (∃ out, env.syncoid k = .ok out) →
      (∃ jr, (runJobInner job env).result = .ok jr ∧ jr.success = true) ∧
      (∀ e, env.shutdown = .exits 0 e →
        (runJobInner job env).shutdownEffect = .quiet) ∧
      (∀ e, env.shutdown = .exits (-1) e →
        (runJobInner job env).shutdownEffect = .quiet) ∧
      (∀ c e, env.shutdown = .exits c e → c ≠ 0 → c ≠ -1 →
        (runJobInner job env).shutdownEffect = .warned) ∧
      (∀ msg, env.shutdown = .raises msg →
        (runJobInner job env).shutdownEffect = .swallowed) := by
  intro job env k hsa hssh hgate h1k hkr hfails hok
  rw [runJobInner_successPath job env k hssh hgate h1k hkr hfails hok]
  refine ⟨⟨_, rfl, rfl⟩, ?_, ?_, ?_, ?_⟩
  · intro e he
    simp [maybeShutdown, hsa, he]
  · intro e he
    simp [maybeShutdown, hsa, he]
  · intro c e he hc0 hc1
    simp only [maybeShutdown, hsa, Bool.not_true, Bool.false_eq_true, if_false, he]
    rw [if_neg (by omega)]
  · intro msg he
    simp [maybeShutdown, hsa, he]

/-- Claim C2, witness: a job whose remote shutdown raises still returns
success=true (with the exception swallowed), for a run whose single
replication attempt succeeds. -/
theorem C2_shutdown_never_flips_success_witness :
    (∃ jr, (runJobInner { name := "j", target_host := "h" }
      { sshUp := true, driveReady := true, syncoid := fun _ => .ok "",
        snapshots := [], shutdown := .raises "connection reset" }).result = .ok jr ∧
      jr.success = true) ∧
    (runJobInner { name := "j", target_host := "h" }
      { sshUp := true, driveReady := true, syncoid := fun _ => .ok "",
        snapshots := [], shutdown := .raises "connection reset" }).shutdownEffect =
      .swallowed := by
  have h := C2_shutdown_never_flips_success
    { name := "j", target_host := "h" }
    { sshUp := true, driveReady := true, syncoid := fun _ => .ok "",
      snapshots := [], shutdown := .raises "connection reset" }
    1 rfl rfl rfl (by omega) (by decide)
    (fun j h1 h2 => by omega)
    ⟨"", rfl⟩
  exact ⟨h.1, h.2.2.2.2 "connection reset" rfl⟩

/-- Claim C3, counterexample.  The claim as stated is false in its
attempts clause: on a reachability timeout the source returns a
`JobResult` constructed without the `attempts` keyword, so the field
holds the dataclass default 1, not 0 — even though zero replication
attempts were consumed. -/
theorem C3_counterexample :
    ((runJobInner { name := "nightly", target_host := "backup.local" }
      { sshUp := false, driveReady := true, syncoid := fun _ => .ok "",
        snapshots := [], shutdown := .exits 0 "" }).result.toOption.map
        JobResult.attempts) = some 1 ∧
    ((runJobInner { name := "nightly", target_host := "backup.local" }
      { sshUp := false, driveReady := true, syncoid := fun _ => .ok "",
        snapshots := [], shutdown := .exits 0 "" }).result.toOption.map
        JobResult.attempts) ≠ some 0 := by
  exact ⟨rfl, by decide⟩

/-- Claim C3 (amended): for every job for which the reachability wait
returns false, run_job returns a JobResult with success=false, an error
message naming the host and the reachability timeout, an empty snapshot
list, and an attempts field left at its dataclass default of 1 — zero
replication-step invocations are consumed.  (The claim's "attempts
unset/zero" is corrected to "unset, i.e. the default 1" by
`C3_counterexample`; the "zero attempts consumed" reading survives as
`syncoidCalls = 0`.) -/
theorem C3_reachability_timeout :
    ∀ (job : BackupJob) (env : Env),
      env.sshUp = false →
      (runJobInner job env).syncoidCalls = 0 ∧
      ∃ jr, (runJobInner job env).result = .ok jr ∧
        jr.success = false ∧
        jr.error = some s!"SSH did not become available on {job.target_host} within {job.timeout}s" ∧
        jr.snapshots_after = [] ∧
        jr.attempts = 1 := by
  intro job env h
  rw [runJobInner_sshDown job env h]
  exact ⟨rfl, _, rfl, rfl, rfl, rfl, rfl⟩

/-- Claim C3, witness: a job against an unreachable host with the
default 120 s timeout yields zero syncoid calls and a failure result
whose error names the host and the timeout. -/
theorem C3_reachability_timeout_witness :
    (runJobInner { name := "nightly", target_host := "backup.local" }
      { sshUp := false, driveReady := true, syncoid := fun _ => .ok "",
        snapshots := [], shutdown := .exits 0 "" }).syncoidCalls = 0 ∧
    ∃ jr, (runJobInner { name := "nightly", target_host := "backup.local" }
      { sshUp := false, driveReady := true, syncoid := fun _ => .ok "",
        snapshots := [], shutdown := .exits 0 "" }).result = .ok jr ∧
      jr.success = false ∧
      jr.error = some "SSH did not become available on backup.local within 120s" ∧
      jr.snapshots_after = [] ∧
      jr.attempts = 1 := by
  exact C3_reachability_timeout
    { name := "nightly", target_host := "backup.local" }
    { sshUp := false, driveReady := true, syncoid := fun _ => .ok "",
      snapshots := [], shutdown := .exits 0 "" }
    rfl

/-- Claim C10: for every job with retries ≤ 0 that passes the
reachability and disk gates, the replication loop body never executes
(`last_error` stays None, the loop variable `attempt` stays unbound,
zero syncoid invocations), and the success-path result construction
raises an unbound-variable error instead of returning a result — after
still attempting the remote shutdown, which precedes the raising
constructor call in the source. -/
theorem C10_zero_retries_raises :
    ∀ (job : BackupJob) (env : Env),
      job.retries ≤ 0 →
      env.sshUp = true →
      (pyTruthy job.backup_device && !env.driveReady) = false →
      replicationLoop env.syncoid job.retries = (none, none, 0) ∧
      (runJobInner job env).result = .error .unboundLocalAttempt ∧
      (runJobInner job env).syncoidCalls = 0 ∧
      (runJobInner job env).shutdownEffect = maybeShutdown job env.shutdown := by
  intro job env hret hssh hgate
  have htoNat : job.retries.toNat = 0 := by omega
  have hloop : replicationLoop env.syncoid job.retries = (none, none, 0) := by
    simp [replicationLoop, htoNat, List.range', replLoopGo]
  refine ⟨hloop, ?_⟩
  simp only [runJobInner, hssh, hgate, hloop, Bool.not_true, Bool.false_eq_true,
    if_false]
  exact ⟨rfl, rfl, rfl⟩

/-- Claim C10, witness: a job with `retries = 0` and a would-succeed
replication oracle raises the unbound-variable error with zero syncoid
calls, the shutdown having been attempted (quietly, exit code 0). -/
theorem C10_zero_retries_raises_witness :
    replicationLoop (fun _ => SyncoidOutcome.ok "") (0 : Int) = (none, none, 0) ∧
    (runJobInner { name := "j", target_host := "h", retries := 0 }
      { sshUp := true, driveReady := true, syncoid := fun _ => .ok "",
        snapshots := [], shutdown := .exits 0 "" }).result = .error .unboundLocalAttempt ∧
    (runJobInner { name := "j", target_host := "h", retries := 0 }
      { sshUp := true, driveReady := true, syncoid := fun _ => .ok "",
        snapshots := [], shutdown := .exits 0 "" }).syncoidCalls = 0 ∧
    (runJobInner { name := "j", target_host := "h", retries := 0 }
      { sshUp := true, driveReady := true, syncoid := fun _ => .ok "",
        snapshots := [], shutdown := .exits 0 "" }).shutdownEffect =
      maybeShutdown { name := "j", target_host := "h", retries := 0 } (.exits 0 "") := by
  exact C10_zero_retries_raises
    { name := "j", target_host := "h", retries := 0 }
    { sshUp := true, driveReady := true, syncoid := fun _ => .ok "",
      snapshots := [], shutdown := .exits 0 "" }
    (by decide) rfl rfl

theorem waitDriveGo_notFirst (states : Nat → DriveState) (spinUp : Bool)
    (poll : Nat) (hpoll : 1 ≤ poll)
    (hinactive : ∀ k, isRemoteDriveActive (states k) = false) :
    ∀ (fuel r n : Nat), waitDriveGo states spinUp poll fuel r n false = (false, []) := by
  intro fuel
  induction fuel with
  | zero => intro r n; rfl
  | succ f ih =>
    intro r n
    rcases Nat.eq_zero_or_pos r with hr | hr
    · subst hr
      simp [waitDriveGo]
    · have hs : min poll r ≠ 0 := by omega
      simp [waitDriveGo, hinactive n, Nat.pos_iff_ne_zero.mp hr, hs, ih]

/-- Claim C4: in one call to the disk-readiness wait with spin-up
enabled, if the device reports standby/sleeping on every poll until the
timeout elapses, the wake-read action is invoked exactly once — at poll
index 0, the first poll — and never again within that wait, and the
wait returns false. -/
theorem C4_spin_up_exactly_once :
    ∀ (states : Nat → DriveState) (poll timeout : Nat),
      1 ≤ poll → 1 ≤ timeout →
      (∀ k, states k = .standby ∨ states k = .sleeping) →
      waitForRemoteDriveActive states true poll timeout = (false, [0]) := by
  intro states poll timeout hpoll htimeout hstandby
  have hinactive : ∀ k, isRemoteDriveActive (states k) = false := by
    intro k
    rcases hstandby k with h | h <;> rw [h] <;> rfl
  obtain ⟨f, rfl⟩ : ∃ f, timeout = f + 1 := ⟨timeout - 1, by omega⟩
  have hs : min poll (f + 1) ≠ 0 := by omega
  simp [waitForRemoteDriveActive, waitDriveGo, hinactive 0, hs,
    waitDriveGo_notFirst states true poll hpoll hinactive]

/-- Claim C4, witness: a drive stuck in standby for a 12-second wait
polled every 5 seconds receives exactly one wake read, at the first
poll, and the wait returns false. -/
theorem C4_spin_up_exactly_once_witness :
    waitForRemoteDriveActive (fun _ => DriveState.standby) true 5 12 = (false, [0]) := by
  exact C4_spin_up_exactly_once (fun _ => .standby) 5 12 (by decide) (by decide)
    (fun _ => Or.inl rfl)

/-- Claim C5: the readiness predicate `is_remote_drive_active` returns
true exactly for the non-standby/sleeping states — the active state and
the indeterminate states `unknown` and `hdparm_unavailable` — and
false exactly for standby/sleeping; consequently the disk-readiness
wait returns true immediately, with no sleep and no wake read, when the
first poll observes any of these optimistic states. -/
theorem C5_optimistic_readiness :
    (∀ s : DriveState,
      isRemoteDriveActive s = true ↔ s ≠ .standby ∧ s ≠ .sleeping) ∧
    (∀ (states : Nat → DriveState) (spinUp : Bool) (poll timeout : Nat),
      1 ≤ timeout →
      isRemoteDriveActive (states 0) = true →
      waitForRemoteDriveActive states spinUp poll timeout = (true, [])) := by
  constructor
  · intro s
    cases s <;> decide
  · intro states spinUp poll timeout htimeout hact
    obtain ⟨f, rfl⟩ : ∃ f, timeout = f + 1 := ⟨timeout - 1, by omega⟩
    simp [waitForRemoteDriveActive, waitDriveGo, hact]

/-- Claim C5, witness: with the first poll reporting `unknown`, a wait
with spin-up enabled returns true at once and issues no wake read. -/
theorem C5_optimistic_readiness_witness :
    isRemoteDriveActive DriveState.unknown = true ∧
    waitForRemoteDriveActive (fun _ => DriveState.unknown) true 5 90 = (true, []) := by
  exact ⟨(C5_optimistic_readiness.1 .unknown).mpr (by decide),
    C5_optimistic_readiness.2 (fun _ => .unknown) true 5 90 (by decide) rfl⟩

theorem waitForSshGo_zero_remaining (conn : Nat → ConnOutcome) (poll : Nat) :
    ∀ (fuel n : Nat), waitForSshGo conn poll fuel 0 n = (false, 0, []) := by
  intro fuel n
  cases fuel with
  | zero => rfl
  | succ f => simp [waitForSshGo]

theorem waitForSshGo_never (conn : Nat → ConnOutcome) (poll : Nat)
    (hpoll : 1 ≤ poll) (hconn : ∀ k, conn k ≠ .connected) :
    ∀ (fuel r n : Nat), r ≤ fuel → 1 ≤ r →
      ∃ q rem, 1 ≤ rem ∧ rem ≤ poll ∧ r = q * poll + rem ∧
        waitForSshGo conn poll fuel r n =
          (false, r, List.replicate q poll ++ [rem]) := by
  intro fuel
  induction fuel with
  | zero => intro r n hr h1; omega
  | succ f ih =>
    intro r n hr h1
    have hrne : ¬ r = 0 := by omega
    rcases Nat.lt_or_ge poll r with hlt | hle
    · -- more than one poll interval remains: sleep the full interval
      have hmin : min poll r = poll := by omega
      obtain ⟨q', rem', hr1, hr2, hr3, hval⟩ := ih (r - poll) (n + 1)
        (by omega) (by omega)
      refine ⟨q' + 1, rem', hr1, hr2, ?_, ?_⟩
      · obtain ⟨t, ht⟩ : ∃ t, q' * poll = t := ⟨_, rfl⟩
        rw [Nat.succ_mul, ht]
        rw [ht] at hr3
        omega
      · cases hc : conn n
        case connected => exact absurd hc (hconn n)
        all_goals
          simp only [waitForSshGo, hrne, if_false, hc, hmin,
            show ¬ poll = 0 by omega, hval, List.replicate_succ]
          rw [show poll + (r - poll) = r by omega]
          simp
    · -- the deadline is within one poll interval: sleep the remainder
      have hmin : min poll r = r := by omega
      refine ⟨0, r, h1, hle, by omega, ?_⟩
      cases hc : conn n
      case connected => exact absurd hc (hconn n)
      all_goals
        simp only [waitForSshGo, hrne, if_false, hc, hmin,
          show ¬ r = 0 by omega, Nat.sub_self,
          waitForSshGo_zero_remaining conn poll f (n + 1), List.replicate]
        simp

/-- Claim C6: in the reachability prober, every failed connection
attempt sleeps min(poll_interval, time_remaining) before the next
attempt — all sleeps are full poll intervals except the final one,
which is exactly the remainder of the timeout — so the wait ends
exactly at the deadline with no overshoot; a failed attempt (connection
refused or timed out) is absorbed rather than raising, and when the
host never accepts a connection the prober returns false.  The
conclusion exhibits the sleep schedule: q full intervals followed by
the exact remainder rem with q * poll + rem = timeout, total elapsed
time exactly the timeout. -/
theorem C6_reachability_prober :
    ∀ (conn : Nat → ConnOutcome) (poll timeout : Nat),
      1 ≤ poll → 1 ≤ timeout →
      (∀ k, conn k ≠ .connected) →
      ∃ q rem, 1 ≤ rem ∧ rem ≤ poll ∧ timeout = q * poll + rem ∧
        waitForSsh conn poll timeout =
          (false, timeout, List.replicate q poll ++ [rem]) := by
  intro conn poll timeout hpoll htimeout hconn
  exact waitForSshGo_never conn poll hpoll hconn timeout timeout 0 le_rfl htimeout

/-- Claim C6, witness: a never-answering host probed every 5 seconds
with a 7-second timeout sleeps 5 s then 2 s (the exact remainder),
returning false after exactly 7 modelled seconds. -/
theorem C6_reachability_prober_witness :
    waitForSsh (fun _ => ConnOutcome.refused) 5 7 = (false, 7, [5, 2]) ∧
    ∃ q rem, 1 ≤ rem ∧ rem ≤ 5 ∧ 7 = q * 5 + rem ∧
      waitForSsh (fun _ => ConnOutcome.refused) 5 7 =
        (false, 7, List.replicate q 5 ++ [rem]) := by
  refine ⟨rfl, ?_⟩
  exact C6_reachability_prober (fun _ => .refused) 5 7 (by decide) (by decide)
    (fun k => by simp)

theorem syncoidSshOptsParts_no_port (k : String) (q : Int) :
    s!"-p {q}" ∉ syncoidSshOptsParts (some k) := by
  intro hmem
  simp only [syncoidSshOptsParts, List.mem_append, List.mem_cons,
    List.not_mem_nil, or_false] at hmem
  rcases hmem with h | h
  · have h2 := congrArg String.data h
    have hd : (s!"-p {q}").data = '-' :: 'p' :: ' ' :: ((toString q).data ++ []) := rfl
    have h3 : "-o StrictHostKeyChecking=no".data =
        '-' :: 'o' :: " StrictHostKeyChecking=no".data := rfl
    rw [hd, h3] at h2
    simp at h2
  · by_cases hk : k = ""
    · rw [if_pos hk] at h
      simp at h
    · rw [if_neg hk] at h
      simp only [List.mem_cons, List.not_mem_nil, or_false] at h
      have h2 := congrArg String.data h
      have hd : (s!"-p {q}").data = '-' :: 'p' :: ' ' :: ((toString q).data ++ []) := rfl
      have h3 : (s!"-i {k}").data = '-' :: 'i' :: ' ' :: (k.data ++ []) := rfl
      rw [hd, h3] at h2
      simp at h2

/-- Claim C7, counterexample.  The claim as stated is false for the
push direction: `run_syncoid` accepts no SSH port at all (and
`_run_job_inner` passes none), so for a job with `ssh_port = 2222` and
a key, the pull invocation's option parts carry `-p 2222` but the push
invocation's option parts cannot — the full push argument vector is
exhibited, port-free. -/
theorem C7_counterexample :
    "-p 2222" ∈ restoreSshOptsParts (some "/root/.ssh/id_ed25519") 2222 ∧
    "-p 2222" ∉ syncoidSshOptsParts (some "/root/.ssh/id_ed25519") ∧
    runSyncoidCmd "rpool/data" "nuc" "backup/data" true "root"
        (some "/root/.ssh/id_ed25519") false "syncoid" =
      ["syncoid", "--recursive", "--sshcipher", "aes128-ctr", "--sshoption",
       "-o StrictHostKeyChecking=no -i /root/.ssh/id_ed25519",
       "rpool/data", "root@nuc:backup/data"] := by
  exact ⟨by decide, by decide, by decide⟩

/-- Claim C7 (amended): for both replication directions the constructed
invocation carries the fixed cipher preference and an SSH-layer option
string that embeds the key path when a truthy (non-empty) key is given
— the source gates the option with `if ssh_key:`, so an absent or
empty key adds no key option in either direction; the non-default
port, when the SSH port differs from 22, is embedded by the pull
direction (run_restore_syncoid) only — the push direction (run_syncoid)
takes no port parameter and its option parts never contain a port
option, so pushes always use the SSH default port. -/
theorem C7_ssh_option_construction :
    ∀ (k : String) (p : Int), k ≠ "" →
      (s!"-i {k}" ∈ syncoidSshOptsParts (some k)) ∧
      (s!"-i {k}" ∈ restoreSshOptsParts (some k) p) ∧
      (p ≠ 22 → s!"-p {p}" ∈ restoreSshOptsParts (some k) p) ∧
      (p = 22 →
        restoreSshOptsParts (some k) p =
          ["-o StrictHostKeyChecking=no", s!"-i {k}"]) ∧
      (∀ q : Int, s!"-p {q}" ∉ syncoidSshOptsParts (some k)) ∧
      (syncoidSshOptsParts (some "") = ["-o StrictHostKeyChecking=no"] ∧
        syncoidSshOptsParts none = ["-o StrictHostKeyChecking=no"] ∧
        restoreSshOptsParts (some "") 22 = ["-o StrictHostKeyChecking=no"] ∧
        restoreSshOptsParts none 22 = ["-o StrictHostKeyChecking=no"]) ∧
      (∀ sd th td rec u np bin,
        "--sshcipher" ∈ runSyncoidCmd sd th td rec u (some k) np bin ∧
        "aes128-ctr" ∈ runSyncoidCmd sd th td rec u (some k) np bin ∧
        String.intercalate " " (syncoidSshOptsParts (some k)) ∈
          runSyncoidCmd sd th td rec u (some k) np bin) ∧
      (∀ sd th td rec u np fd bin,
        "--sshcipher" ∈ runRestoreSyncoidCmd sd th td rec u (some k) p np fd bin ∧
        "aes128-ctr" ∈ runRestoreSyncoidCmd sd th td rec u (some k) p np fd bin ∧
        String.intercalate " " (restoreSshOptsParts (some k) p) ∈
          runRestoreSyncoidCmd sd th td rec u (some k) p np fd bin) := by
  intro k p hk
  refine ⟨?_, ?_, ?_, ?_, syncoidSshOptsParts_no_port k,
    ⟨by decide, by decide, by decide, by decide⟩, ?_, ?_⟩
  · simp [syncoidSshOptsParts, hk]
  · simp [restoreSshOptsParts, hk]
  · intro hp
    simp [restoreSshOptsParts, hp]
  · intro hp
    simp [restoreSshOptsParts, hk, hp]
  · intro sd th td rec u np bin
    refine ⟨?_, ?_, ?_⟩ <;> simp [runSyncoidCmd]
  · intro sd th td rec u np fd bin
    refine ⟨?_, ?_, ?_⟩ <;> simp [runRestoreSyncoidCmd]

/-- Claim C7, witness: with the non-empty key `/k` and port 2222, the
key option is in both directions' option parts, the port option is in
the pull direction's parts, it is in no push option part, an empty key
adds no key option, and both full command vectors carry the cipher
pair. -/
theorem C7_ssh_option_construction_witness :
    ("-i /k" ∈ syncoidSshOptsParts (some "/k")) ∧
    ("-i /k" ∈ restoreSshOptsParts (some "/k") 2222) ∧
    ("-p 2222" ∈ restoreSshOptsParts (some "/k") 2222) ∧
    ("-p 2222" ∉ syncoidSshOptsParts (some "/k")) ∧
    syncoidSshOptsParts (some "") = ["-o StrictHostKeyChecking=no"] ∧
    "--sshcipher" ∈ runSyncoidCmd "rpool/data" "nuc" "backup/data" true "root"
      (some "/k") false "syncoid" ∧
    "aes128-ctr" ∈ runRestoreSyncoidCmd "rpool/data" "nuc" "backup/data" true
      "root" (some "/k") 2222 false true "syncoid" := by
  have h := C7_ssh_option_construction "/k" 2222 (by decide)
  refine ⟨?_, ?_, h.2.2.1 (by decide), h.2.2.2.2.1 2222, h.2.2.2.2.2.1.1, ?_, ?_⟩
  · simpa using h.1
  · simpa using h.2.1
  · simpa using (h.2.2.2.2.2.2.1 "rpool/data" "nuc" "backup/data" true "root"
      false "syncoid").1
  · simpa using (h.2.2.2.2.2.2.2 "rpool/data" "nuc" "backup/data" true "root"
      false true "syncoid").2.1

theorem filter_map_replace_nil (k : String) (t : APTrigger)
    (rest : List (String × APTrigger))
    (hnone : ∀ e ∈ rest, (e.1 == k) = false) :
    (rest.map (fun e => if e.1 == k then (k, t) else e)).filter
      (fun e => e.1 == k) = [] := by
  induction rest with
  | nil => rfl
  | cons e rest ih =>
    have he := hnone e (by simp)
    rw [List.map_cons, if_neg (by simpa using he), List.filter_cons,
      if_neg (by simp [he])]
    exact ih (fun e' he' => hnone e' (List.mem_cons_of_mem _ he'))

theorem addJobReplace_filter_eq (tb : List (String × APTrigger)) (k : String)
    (t : APTrigger) (h : (tb.filter (fun e => e.1 == k)).length ≤ 1) :
    (addJobReplace tb k t).filter (fun e => e.1 == k) = [(k, t)] := by
  unfold addJobReplace
  split
  case isTrue hany =>
    induction tb with
    | nil => simp at hany
    | cons e rest ih =>
      by_cases he : (e.1 == k) = true
      · rw [List.filter_cons, if_pos he, List.length_cons] at h
        have hrest : rest.filter (fun e => e.1 == k) = [] := by
          rw [← List.length_eq_zero]
          omega
        have hnone : ∀ e' ∈ rest, (e'.1 == k) = false := by
          intro e' he'
          by_contra hc
          have hmem : e' ∈ rest.filter (fun e => e.1 == k) :=
            List.mem_filter.mpr ⟨he', by simpa using hc⟩
          simp [hrest] at hmem
        rw [List.map_cons, if_pos he, List.filter_cons,
          if_pos (show ((k, t).1 == k) = true by simp),
          filter_map_replace_nil k t rest hnone]
      · have he' : (e.1 == k) = false := by simpa using he
        rw [List.filter_cons, if_neg (by simp [he'])] at h
        have hany' : rest.any (fun e => e.1 == k) = true := by
          rw [List.any_cons, he', Bool.false_or] at hany
          exact hany
        rw [List.map_cons, if_neg (by simp [he']), List.filter_cons,
          if_neg (by simp [he'])]
        exact ih h hany'
  case isFalse hany =>
    have hnil : tb.filter (fun e => e.1 == k) = [] := by
      rw [List.filter_eq_nil_iff]
      intro e he
      by_contra hc
      exact hany (List.any_eq_true.mpr ⟨e, he, by simpa using hc⟩)
    simp [List.filter_append, hnil]

theorem addJobReplace_filter_ne (tb : List (String × APTrigger)) (k : String)
    (t : APTrigger) (k' : String) (hne : k' ≠ k) :
    (addJobReplace tb k t).filter (fun e => e.1 == k') =
      tb.filter (fun e => e.1 == k') := by
  unfold addJobReplace
  split
  case isTrue hany =>
    clear hany
    induction tb with
    | nil => rfl
    | cons e rest ih =>
      by_cases he : (e.1 == k) = true
      · have hek : e.1 = k := by simpa using he
        have h1 : ((k, t).1 == k') = false := by simp [Ne.symm hne]
        have h2 : (e.1 == k') = false := by simp [hek, Ne.symm hne]
        rw [List.map_cons, if_pos he, List.filter_cons, if_neg (by simp [h1]),
          List.filter_cons, if_neg (by simp [h2]), ih]
      · rw [List.map_cons, if_neg (by simpa using he), List.filter_cons,
          List.filter_cons, ih]
  case isFalse hany =>
    have h1 : ((k, t).1 == k') = false := by simp [Ne.symm hne]
    simp [List.filter_append, h1]

theorem addJobReplace_count_le (tb : List (String × APTrigger)) (key : String)
    (t : APTrigger) (k : String)
    (h : (tb.filter (fun e => e.1 == k)).length ≤ 1) :
    ((addJobReplace tb key t).filter (fun e => e.1 == k)).length ≤ 1 := by
  by_cases hk : k = key
  · subst hk
    rw [addJobReplace_filter_eq tb k t h]
    simp
  · rw [addJobReplace_filter_ne tb key t k hk]
    exact h

/-- Claim C9: the scheduler's registration table keeps at most one
active trigger per key — both `schedule_job` (with any key and any
trigger) and every registration step of `load_jobs_from_config`
preserve the invariant — and re-registering a job named X (any second
trigger, via the shared `add_job(..., replace_existing=True)` call)
cancels and replaces the prior trigger, leaving exactly one
registration for X, carrying the most recently registered trigger. -/
theorem C9_one_trigger_per_key :
    (∀ (st : SchedState) (job : BackupJob) (trig : APTrigger)
        (job_id : Option String) (k : String),
      (st.table.filter (fun e => e.1 == k)).length ≤ 1 →
      (((scheduleJob st job trig job_id).table.filter
        (fun e => e.1 == k)).length ≤ 1)) ∧
    (∀ (st : SchedState) (cfg : List (BackupJob × String)) (k : String),
      (st.table.filter (fun e => e.1 == k)).length ≤ 1 →
      (((loadJobsFromConfig st cfg).table.filter
        (fun e => e.1 == k)).length ≤ 1)) ∧
    (∀ (st : SchedState) (job : BackupJob) (t1 t2 : APTrigger),
      (st.table.filter (fun e => e.1 == job.name)).length ≤ 1 →
      ((scheduleJob (scheduleJob st job t1 none) job t2 none).table.filter
        (fun e => e.1 == job.name)) = [(job.name, t2)]) := by
  refine ⟨?_, ?_, ?_⟩
  · intro st job trig job_id k h
    exact addJobReplace_count_le st.table _ trig k h
  · intro st cfg k h
    show ((cfg.foldl _ st.table).filter (fun e => e.1 == k)).length ≤ 1
    induction cfg generalizing st with
    | nil => exact h
    | cons p rest ih =>
      rw [List.foldl_cons]
      by_cases hp : p.2 = ""
      · rw [if_pos hp]
        exact ih ⟨st.jobs, st.table⟩ h
      · rw [if_neg hp]
        cases hps : parseSchedule p.2 with
        | error e =>
          exact ih ⟨st.jobs, st.table⟩ h
        | ok trig =>
          exact ih ⟨st.jobs, addJobReplace st.table p.1.name (.cron trig)⟩
            (addJobReplace_count_le st.table p.1.name (.cron trig) k h)
  · intro st job t1 t2 h
    show ((addJobReplace (addJobReplace st.table job.name t1) job.name t2).filter
      (fun e => e.1 == job.name)) = [(job.name, t2)]
    refine addJobReplace_filter_eq _ job.name t2 ?_
    rw [addJobReplace_filter_eq st.table job.name t1 h]
    simp

/-- Claim C9, witness: starting from an empty scheduler, registering
job "X" with a daily trigger and then re-registering "X" with a weekly
trigger leaves exactly one registration for "X", holding the weekly
trigger; and the one-per-key bound holds for the resulting table. -/
theorem C9_one_trigger_per_key_witness :
    ((scheduleJob (scheduleJob ⟨[], []⟩ { name := "X", target_host := "h" }
        (.cron (.daily 1 0)) none)
      { name := "X", target_host := "h" } (.cron (.weekly .sun 2 30)) none).table.filter
        (fun e => e.1 == "X")) = [("X", .cron (.weekly .sun 2 30))] ∧
    ((scheduleJob ⟨[], []⟩ { name := "X", target_host := "h" }
        (.cron (.daily 1 0)) none).table.filter
        (fun e => e.1 == "X")).length ≤ 1 := by
  constructor
  · exact C9_one_trigger_per_key.2.2 ⟨[], []⟩
      { name := "X", target_host := "h" } (.cron (.daily 1 0))
      (.cron (.weekly .sun 2 30)) (by decide)
  · exact C9_one_trigger_per_key.1 ⟨[], []⟩
      { name := "X", target_host := "h" } (.cron (.daily 1 0)) none "X"
      (by decide)

theorem digit_not_space : ∀ d : Nat, d < 10 →
    pyIsSpace (Nat.digitChar d) = false := by decide

theorem asciiLower_digit : ∀ d : Nat, d < 10 →
    asciiLower (Nat.digitChar d) = Nat.digitChar d := by decide

theorem digitVal_digit : ∀ d : Nat, d < 10 →
    digitVal (Nat.digitChar d) = some d := by decide

theorem dropWhile_cons_false (p : Char → Bool) (c : Char) (l : List Char)
    (h : p c = false) : List.dropWhile p (c :: l) = c :: l := by
  simp [List.dropWhile, h]

theorem parseHHMM_digits (h m : Nat) (hh : h < 100) (hm : m < 100) :
    parseHHMMEnd (Nat.digitChar (h / 10) :: Nat.digitChar (h % 10) :: ':' :: Nat.digitChar (m / 10) :: Nat.digitChar (m % 10) :: []) = some (h, m) := by
  rw [show parseHHMMEnd (Nat.digitChar (h / 10) :: Nat.digitChar (h % 10) :: ':' :: Nat.digitChar (m / 10) :: Nat.digitChar (m % 10) :: [])
      = (digitVal (Nat.digitChar (h / 10))).bind (fun va => (digitVal (Nat.digitChar (h % 10))).bind (fun vb =>
        (digitVal (Nat.digitChar (m / 10))).bind (fun vc => (digitVal (Nat.digitChar (m % 10))).bind (fun vd =>
          some (10 * va + vb, 10 * vc + vd))))) from rfl]
  rw [digitVal_digit _ (by omega : h / 10 < 10),
    digitVal_digit _ (by omega : h % 10 < 10),
    digitVal_digit _ (by omega : m / 10 < 10),
    digitVal_digit _ (by omega : m % 10 < 10)]
  simp only [Option.some_bind]
  rw [Nat.div_add_mod, Nat.div_add_mod]

theorem cronTrigger_ok_of_valid (dow : Option Weekday) (h m : Nat)
    (hh : h ≤ 23) (hm : m ≤ 59) :
    cronTrigger dow h m =
      .ok (match dow with | some d => .weekly d h m | none => .daily h m) := by
  unfold cronTrigger
  rw [if_pos ⟨hh, hm⟩]
  cases dow <;> rfl

theorem parseSchedule_daily_canonical (h : Nat) (hh : h < 24) (m : Nat)
    (hm : m < 60) :
    parseSchedule (dailyScheduleStr h m) = .ok (.daily h m) := by
  have hlow : (pyStrip (dailyScheduleStr h m)).data.map asciiLower
      = 'd' :: 'a' :: 'i' :: 'l' :: 'y' :: ' ' :: Nat.digitChar (h / 10) :: Nat.digitChar (h % 10) :: ':' :: Nat.digitChar (m / 10) :: Nat.digitChar (m % 10) :: [] := by
    rw [show (pyStrip (dailyScheduleStr h m)).data
        = (((dailyScheduleStr h m).data.dropWhile pyIsSpace).reverse.dropWhile
            pyIsSpace).reverse from rfl]
    rw [show ((dailyScheduleStr h m).data.dropWhile pyIsSpace).reverse
        = Nat.digitChar (m % 10) :: Nat.digitChar (m / 10) :: ':' :: Nat.digitChar (h % 10) :: Nat.digitChar (h / 10) :: ' ' :: 'y' :: 'l' :: 'i' :: 'a' :: 'd' :: [] from rfl]
    rw [dropWhile_cons_false pyIsSpace _ _ (digit_not_space (m % 10) (by omega))]
    rw [show (Nat.digitChar (m % 10) :: Nat.digitChar (m / 10) :: ':' :: Nat.digitChar (h % 10) :: Nat.digitChar (h / 10) :: ' ' :: 'y' :: 'l' :: 'i' :: 'a' :: 'd' :: []).reverse
        = 'd' :: 'a' :: 'i' :: 'l' :: 'y' :: ' ' :: Nat.digitChar (h / 10) :: Nat.digitChar (h % 10) :: ':' :: Nat.digitChar (m / 10) :: Nat.digitChar (m % 10) :: [] from rfl]
    rw [show ('d' :: 'a' :: 'i' :: 'l' :: 'y' :: ' ' :: Nat.digitChar (h / 10) :: Nat.digitChar (h % 10) :: ':' :: Nat.digitChar (m / 10) :: Nat.digitChar (m % 10) :: []).map asciiLower
        = 'd' :: 'a' :: 'i' :: 'l' :: 'y' :: ' ' :: asciiLower (Nat.digitChar (h / 10)) ::
          asciiLower (Nat.digitChar (h % 10)) :: ':' :: asciiLower (Nat.digitChar (m / 10)) :: asciiLower (Nat.digitChar (m % 10)) :: [] from rfl]
    rw [asciiLower_digit _ (by omega : h / 10 < 10),
      asciiLower_digit _ (by omega : h % 10 < 10),
      asciiLower_digit _ (by omega : m / 10 < 10),
      asciiLower_digit _ (by omega : m % 10 < 10)]
  have hw : parseWeekly ('d' :: 'a' :: 'i' :: 'l' :: 'y' :: ' ' :: Nat.digitChar (h / 10) :: Nat.digitChar (h % 10) :: ':' :: Nat.digitChar (m / 10) :: Nat.digitChar (m % 10) :: []) = none := rfl
  have hd : parseDaily ('d' :: 'a' :: 'i' :: 'l' :: 'y' :: ' ' :: Nat.digitChar (h / 10) :: Nat.digitChar (h % 10) :: ':' :: Nat.digitChar (m / 10) :: Nat.digitChar (m % 10) :: []) = some (h, m) := by
    rw [show parseDaily ('d' :: 'a' :: 'i' :: 'l' :: 'y' :: ' ' :: Nat.digitChar (h / 10) :: Nat.digitChar (h % 10) :: ':' :: Nat.digitChar (m / 10) :: Nat.digitChar (m % 10) :: [])
        = parseHHMMEnd (List.dropWhile pyIsSpace (Nat.digitChar (h / 10) :: Nat.digitChar (h % 10) :: ':' :: Nat.digitChar (m / 10) :: Nat.digitChar (m % 10) :: [])) from rfl]
    rw [dropWhile_cons_false pyIsSpace _ _ (digit_not_space (h / 10) (by omega))]
    exact parseHHMM_digits h m (by omega) (by omega)
  unfold parseSchedule
  rw [hlow]
  simp only [hw, hd]
  rw [cronTrigger_ok_of_valid none h m (by omega) (by omega)]

theorem parseSchedule_weekly_mon (h : Nat) (hh : h < 24) (m : Nat)
    (hm : m < 60) :
    parseSchedule (weeklyScheduleStr .mon h m) = .ok (.weekly .mon h m) := by
  have hlow : (pyStrip (weeklyScheduleStr .mon h m)).data.map asciiLower
      = 'w' :: 'e' :: 'e' :: 'k' :: 'l' :: 'y' :: ' ' :: 'm' :: 'o' :: 'n' :: 'd' :: 'a' :: 'y' :: ' ' :: Nat.digitChar (h / 10) :: Nat.digitChar (h % 10) :: ':' :: Nat.digitChar (m / 10) :: Nat.digitChar (m % 10) :: [] := by
    rw [show (pyStrip (weeklyScheduleStr .mon h m)).data
        = (((weeklyScheduleStr .mon h m).data.dropWhile pyIsSpace).reverse.dropWhile
            pyIsSpace).reverse from rfl]
    rw [show ((weeklyScheduleStr .mon h m).data.dropWhile pyIsSpace).reverse
        = Nat.digitChar (m % 10) :: Nat.digitChar (m / 10) :: ':' :: Nat.digitChar (h % 10) :: Nat.digitChar (h / 10) :: ' ' :: 'y' :: 'a' :: 'd' :: 'n' :: 'o' :: 'M' :: ' ' :: 'y' :: 'l' :: 'k' :: 'e' :: 'e' :: 'w' :: [] from rfl]
    rw [dropWhile_cons_false pyIsSpace _ _ (digit_not_space (m % 10) (by omega))]
    rw [show (Nat.digitChar (m % 10) :: Nat.digitChar (m / 10) :: ':' :: Nat.digitChar (h % 10) :: Nat.digitChar (h / 10) :: ' ' :: 'y' :: 'a' :: 'd' :: 'n' :: 'o' :: 'M' :: ' ' :: 'y' :: 'l' :: 'k' :: 'e' :: 'e' :: 'w' :: []).reverse
        = 'w' :: 'e' :: 'e' :: 'k' :: 'l' :: 'y' :: ' ' :: 'M' :: 'o' :: 'n' :: 'd' :: 'a' :: 'y' :: ' ' :: Nat.digitChar (h / 10) :: Nat.digitChar (h % 10) :: ':' :: Nat.digitChar (m / 10) :: Nat.digitChar (m % 10) :: [] from rfl]
    rw [show ('w' :: 'e' :: 'e' :: 'k' :: 'l' :: 'y' :: ' ' :: 'M' :: 'o' :: 'n' :: 'd' :: 'a' :: 'y' :: ' ' :: Nat.digitChar (h / 10) :: Nat.digitChar (h % 10) :: ':' :: Nat.digitChar (m / 10) :: Nat.digitChar (m % 10) :: []).map asciiLower
        = 'w' :: 'e' :: 'e' :: 'k' :: 'l' :: 'y' :: ' ' :: 'm' :: 'o' :: 'n' :: 'd' :: 'a' :: 'y' :: ' ' :: asciiLower (Nat.digitChar (h / 10)) :: asciiLower (Nat.digitChar (h % 10)) :: ':' ::
          asciiLower (Nat.digitChar (m / 10)) :: asciiLower (Nat.digitChar (m % 10)) :: [] from rfl]
    rw [asciiLower_digit _ (by omega : h / 10 < 10),
      asciiLower_digit _ (by omega : h % 10 < 10),
      asciiLower_digit _ (by omega : m / 10 < 10),
      asciiLower_digit _ (by omega : m % 10 < 10)]
  have hwk : parseWeekly ('w' :: 'e' :: 'e' :: 'k' :: 'l' :: 'y' :: ' ' :: 'm' :: 'o' :: 'n' :: 'd' :: 'a' :: 'y' :: ' ' :: Nat.digitChar (h / 10) :: Nat.digitChar (h % 10) :: ':' :: Nat.digitChar (m / 10) :: Nat.digitChar (m % 10) :: []) = some (.mon, h, m) := by
    rw [show parseWeekly ('w' :: 'e' :: 'e' :: 'k' :: 'l' :: 'y' :: ' ' :: 'm' :: 'o' :: 'n' :: 'd' :: 'a' :: 'y' :: ' ' :: Nat.digitChar (h / 10) :: Nat.digitChar (h % 10) :: ':' :: Nat.digitChar (m / 10) :: Nat.digitChar (m % 10) :: [])
        = (parseHHMMEnd (List.dropWhile pyIsSpace (Nat.digitChar (h / 10) :: Nat.digitChar (h % 10) :: ':' :: Nat.digitChar (m / 10) :: Nat.digitChar (m % 10) :: []))).bind
            (fun p => some (Weekday.mon, p.1, p.2)) from rfl]
    rw [dropWhile_cons_false pyIsSpace _ _ (digit_not_space (h / 10) (by omega))]
    rw [parseHHMM_digits h m (by omega) (by omega)]
    rfl
  unfold parseSchedule
  rw [hlow]
  simp only [hwk]
  rw [cronTrigger_ok_of_valid (some .mon) h m (by omega) (by omega)]

theorem parseSchedule_weekly_tue (h : Nat) (hh : h < 24) (m : Nat)
    (hm : m < 60) :
    parseSchedule (weeklyScheduleStr .tue h m) = .ok (.weekly .tue h m) := by
  have hlow : (pyStrip (weeklyScheduleStr .tue h m)).data.map asciiLower
      = 'w' :: 'e' :: 'e' :: 'k' :: 'l' :: 'y' :: ' ' :: 't' :: 'u' :: 'e' :: 's' :: 'd' :: 'a' :: 'y' :: ' ' :: Nat.digitChar (h / 10) :: Nat.digitChar (h % 10) :: ':' :: Nat.digitChar (m / 10) :: Nat.digitChar (m % 10) :: [] := by
    rw [show (pyStrip (weeklyScheduleStr .tue h m)).data
        = (((weeklyScheduleStr .tue h m).data.dropWhile pyIsSpace).reverse.dropWhile
            pyIsSpace).reverse from rfl]
    rw [show ((weeklyScheduleStr .tue h m).data.dropWhile pyIsSpace).reverse
        = Nat.digitChar (m % 10) :: Nat.digitChar (m / 10) :: ':' :: Nat.digitChar (h % 10) :: Nat.digitChar (h / 10) :: ' ' :: 'y' :: 'a' :: 'd' :: 's' :: 'e' :: 'u' :: 'T' :: ' ' :: 'y' :: 'l' :: 'k' :: 'e' :: 'e' :: 'w' :: [] from rfl]
    rw [dropWhile_cons_false pyIsSpace _ _ (digit_not_space (m % 10) (by omega))]
    rw [show (Nat.digitChar (m % 10) :: Nat.digitChar (m / 10) :: ':' :: Nat.digitChar (h % 10) :: Nat.digitChar (h / 10) :: ' ' :: 'y' :: 'a' :: 'd' :: 's' :: 'e' :: 'u' :: 'T' :: ' ' :: 'y' :: 'l' :: 'k' :: 'e' :: 'e' :: 'w' :: []).reverse
        = 'w' :: 'e' :: 'e' :: 'k' :: 'l' :: 'y' :: ' ' :: 'T' :: 'u' :: 'e' :: 's' :: 'd' :: 'a' :: 'y' :: ' ' :: Nat.digitChar (h / 10) :: Nat.digitChar (h % 10) :: ':' :: Nat.digitChar (m / 10) :: Nat.digitChar (m % 10) :: [] from rfl]
    rw [show ('w' :: 'e' :: 'e' :: 'k' :: 'l' :: 'y' :: ' ' :: 'T' :: 'u' :: 'e' :: 's' :: 'd' :: 'a' :: 'y' :: ' ' :: Nat.digitChar (h / 10) :: Nat.digitChar (h % 10) :: ':' :: Nat.digitChar (m / 10) :: Nat.digitChar (m % 10) :: []).map asciiLower
        = 'w' :: 'e' :: 'e' :: 'k' :: 'l' :: 'y' :: ' ' :: 't' :: 'u' :: 'e' :: 's' :: 'd' :: 'a' :: 'y' :: ' ' :: asciiLower (Nat.digitChar (h / 10)) :: asciiLower (Nat.digitChar (h % 10)) :: ':' ::
          asciiLower (Nat.digitChar (m / 10)) :: asciiLower (Nat.digitChar (m % 10)) :: [] from rfl]
    rw [asciiLower_digit _ (by omega : h / 10 < 10),
      asciiLower_digit _ (by omega : h % 10 < 10),
      asciiLower_digit _ (by omega : m / 10 < 10),
      asciiLower_digit _ (by omega : m % 10 < 10)]
  have hwk : parseWeekly ('w' :: 'e' :: 'e' :: 'k' :: 'l' :: 'y' :: ' ' :: 't' :: 'u' :: 'e' :: 's' :: 'd' :: 'a' :: 'y' :: ' ' :: Nat.digitChar (h / 10) :: Nat.digitChar (h % 10) :: ':' :: Nat.digitChar (m / 10) :: Nat.digitChar (m % 10) :: []) = some (.tue, h, m) := by
    rw [show parseWeekly ('w' :: 'e' :: 'e' :: 'k' :: 'l' :: 'y' :: ' ' :: 't' :: 'u' :: 'e' :: 's' :: 'd' :: 'a' :: 'y' :: ' ' :: Nat.digitChar (h / 10) :: Nat.digitChar (h % 10) :: ':' :: Nat.digitChar (m / 10) :: Nat.digitChar (m % 10) :: [])
        = (parseHHMMEnd (List.dropWhile pyIsSpace (Nat.digitChar (h / 10) :: Nat.digitChar (h % 10) :: ':' :: Nat.digitChar (m / 10) :: Nat.digitChar (m % 10) :: []))).bind
            (fun p => some (Weekday.tue, p.1, p.2)) from rfl]
    rw [dropWhile_cons_false pyIsSpace _ _ (digit_not_space (h / 10) (by omega))]
    rw [parseHHMM_digits h m (by omega) (by omega)]
    rfl
  unfold parseSchedule
  rw [hlow]
  simp only [hwk]
  rw [cronTrigger_ok_of_valid (some .tue) h m (by omega) (by omega)]

theorem parseSchedule_weekly_wed (h : Nat) (hh : h < 24) (m : Nat)
    (hm : m < 60) :
    parseSchedule (weeklyScheduleStr .wed h m) = .ok (.weekly .wed h m) := by
  have hlow : (pyStrip (weeklyScheduleStr .wed h m)).data.map asciiLower
      = 'w' :: 'e' :: 'e' :: 'k' :: 'l' :: 'y' :: ' ' :: 'w' :: 'e' :: 'd' :: 'n' :: 'e' :: 's' :: 'd' :: 'a' :: 'y' :: ' ' :: Nat.digitChar (h / 10) :: Nat.digitChar (h % 10) :: ':' :: Nat.digitChar (m / 10) :: Nat.digitChar (m % 10) :: [] := by
    rw [show (pyStrip (weeklyScheduleStr .wed h m)).data
        = (((weeklyScheduleStr .wed h m).data.dropWhile pyIsSpace).reverse.dropWhile
            pyIsSpace).reverse from rfl]
    rw [show ((weeklyScheduleStr .wed h m).data.dropWhile pyIsSpace).reverse
        = Nat.digitChar (m % 10) :: Nat.digitChar (m / 10) :: ':' :: Nat.digitChar (h % 10) :: Nat.digitChar (h / 10) :: ' ' :: 'y' :: 'a' :: 'd' :: 's' :: 'e' :: 'n' :: 'd' :: 'e' :: 'W' :: ' ' :: 'y' :: 'l' :: 'k' :: 'e' :: 'e' :: 'w' :: [] from rfl]
    rw [dropWhile_cons_false pyIsSpace _ _ (digit_not_space (m % 10) (by omega))]
    rw [show (Nat.digitChar (m % 10) :: Nat.digitChar (m / 10) :: ':' :: Nat.digitChar (h % 10) :: Nat.digitChar (h / 10) :: ' ' :: 'y' :: 'a' :: 'd' :: 's' :: 'e' :: 'n' :: 'd' :: 'e' :: 'W' :: ' ' :: 'y' :: 'l' :: 'k' :: 'e' :: 'e' :: 'w' :: []).reverse
        = 'w' :: 'e' :: 'e' :: 'k' :: 'l' :: 'y' :: ' ' :: 'W' :: 'e' :: 'd' :: 'n' :: 'e' :: 's' :: 'd' :: 'a' :: 'y' :: ' ' :: Nat.digitChar (h / 10) :: Nat.digitChar (h % 10) :: ':' :: Nat.digitChar (m / 10) :: Nat.digitChar (m % 10) :: [] from rfl]
    rw [show ('w' :: 'e' :: 'e' :: 'k' :: 'l' :: 'y' :: ' ' :: 'W' :: 'e' :: 'd' :: 'n' :: 'e' :: 's' :: 'd' :: 'a' :: 'y' :: ' ' :: Nat.digitChar (h / 10) :: Nat.digitChar (h % 10) :: ':' :: Nat.digitChar (m / 10) :: Nat.digitChar (m % 10) :: []).map asciiLower
        = 'w' :: 'e' :: 'e' :: 'k' :: 'l' :: 'y' :: ' ' :: 'w' :: 'e' :: 'd' :: 'n' :: 'e' :: 's' :: 'd' :: 'a' :: 'y' :: ' ' :: asciiLower (Nat.digitChar (h / 10)) :: asciiLower (Nat.digitChar (h % 10)) :: ':' ::
          asciiLower (Nat.digitChar (m / 10)) :: asciiLower (Nat.digitChar (m % 10)) :: [] from rfl]
    rw [asciiLower_digit _ (by omega : h / 10 < 10),
      asciiLower_digit _ (by omega : h % 10 < 10),
      asciiLower_digit _ (by omega : m / 10 < 10),
      asciiLower_digit _ (by omega : m % 10 < 10)]
  have hwk : parseWeekly ('w' :: 'e' :: 'e' :: 'k' :: 'l' :: 'y' :: ' ' :: 'w' :: 'e' :: 'd' :: 'n' :: 'e' :: 's' :: 'd' :: 'a' :: 'y' :: ' ' :: Nat.digitChar (h / 10) :: Nat.digitChar (h % 10) :: ':' :: Nat.digitChar (m / 10) :: Nat.digitChar (m % 10) :: []) = some (.wed, h, m) := by
    rw [show parseWeekly ('w' :: 'e' :: 'e' :: 'k' :: 'l' :: 'y' :: ' ' :: 'w' :: 'e' :: 'd' :: 'n' :: 'e' :: 's' :: 'd' :: 'a' :: 'y' :: ' ' :: Nat.digitChar (h / 10) :: Nat.digitChar (h % 10) :: ':' :: Nat.digitChar (m / 10) :: Nat.digitChar (m % 10) :: [])
        = (parseHHMMEnd (List.dropWhile pyIsSpace (Nat.digitChar (h / 10) :: Nat.digitChar (h % 10) :: ':' :: Nat.digitChar (m / 10) :: Nat.digitChar (m % 10) :: []))).bind
            (fun p => some (Weekday.wed, p.1, p.2)) from rfl]
    rw [dropWhile_cons_false pyIsSpace _ _ (digit_not_space (h / 10) (by omega))]
    rw [parseHHMM_digits h m (by omega) (by omega)]
    rfl
  unfold parseSchedule
  rw [hlow]
  simp only [hwk]
  rw [cronTrigger_ok_of_valid (some .wed) h m (by omega) (by omega)]

theorem parseSchedule_weekly_thu (h : Nat) (hh : h < 24) (m : Nat)
    (hm : m < 60) :
    parseSchedule (weeklyScheduleStr .thu h m) = .ok (.weekly .thu h m) := by
  have hlow : (pyStrip (weeklyScheduleStr .thu h m)).data.map asciiLower
      = 'w' :: 'e' :: 'e' :: 'k' :: 'l' :: 'y' :: ' ' :: 't' :: 'h' :: 'u' :: 'r' :: 's' :: 'd' :: 'a' :: 'y' :: ' ' :: Nat.digitChar (h / 10) :: Nat.digitChar (h % 10) :: ':' :: Nat.digitChar (m / 10) :: Nat.digitChar (m % 10) :: [] := by
    rw [show (pyStrip (weeklyScheduleStr .thu h m)).data
        = (((weeklyScheduleStr .thu h m).data.dropWhile pyIsSpace).reverse.dropWhile
            pyIsSpace).reverse from rfl]
    rw [show ((weeklyScheduleStr .thu h m).data.dropWhile pyIsSpace).reverse
        = Nat.digitChar (m % 10) :: Nat.digitChar (m / 10) :: ':' :: Nat.digitChar (h % 10) :: Nat.digitChar (h / 10) :: ' ' :: 'y' :: 'a' :: 'd' :: 's' :: 'r' :: 'u' :: 'h' :: 'T' :: ' ' :: 'y' :: 'l' :: 'k' :: 'e' :: 'e' :: 'w' :: [] from rfl]
    rw [dropWhile_cons_false pyIsSpace _ _ (digit_not_space (m % 10) (by omega))]
    rw [show (Nat.digitChar (m % 10) :: Nat.digitChar (m / 10) :: ':' :: Nat.digitChar (h % 10) :: Nat.digitChar (h / 10) :: ' ' :: 'y' :: 'a' :: 'd' :: 's' :: 'r' :: 'u' :: 'h' :: 'T' :: ' ' :: 'y' :: 'l' :: 'k' :: 'e' :: 'e' :: 'w' :: []).reverse
        = 'w' :: 'e' :: 'e' :: 'k' :: 'l' :: 'y' :: ' ' :: 'T' :: 'h' :: 'u' :: 'r' :: 's' :: 'd' :: 'a' :: 'y' :: ' ' :: Nat.digitChar (h / 10) :: Nat.digitChar (h % 10) :: ':' :: Nat.digitChar (m / 10) :: Nat.digitChar (m % 10) :: [] from rfl]
    rw [show ('w' :: 'e' :: 'e' :: 'k' :: 'l' :: 'y' :: ' ' :: 'T' :: 'h' :: 'u' :: 'r' :: 's' :: 'd' :: 'a' :: 'y' :: ' ' :: Nat.digitChar (h / 10) :: Nat.digitChar (h % 10) :: ':' :: Nat.digitChar (m / 10) :: Nat.digitChar (m % 10) :: []).map asciiLower
        = 'w' :: 'e' :: 'e' :: 'k' :: 'l' :: 'y' :: ' ' :: 't' :: 'h' :: 'u' :: 'r' :: 's' :: 'd' :: 'a' :: 'y' :: ' ' :: asciiLower (Nat.digitChar (h / 10)) :: asciiLower (Nat.digitChar (h % 10)) :: ':' ::
          asciiLower (Nat.digitChar (m / 10)) :: asciiLower (Nat.digitChar (m % 10)) :: [] from rfl]
    rw [asciiLower_digit _ (by omega : h / 10 < 10),
      asciiLower_digit _ (by omega : h % 10 < 10),
      asciiLower_digit _ (by omega : m / 10 < 10),
      asciiLower_digit _ (by omega : m % 10 < 10)]
  have hwk : parseWeekly ('w' :: 'e' :: 'e' :: 'k' :: 'l' :: 'y' :: ' ' :: 't' :: 'h' :: 'u' :: 'r' :: 's' :: 'd' :: 'a' :: 'y' :: ' ' :: Nat.digitChar (h / 10) :: Nat.digitChar (h % 10) :: ':' :: Nat.digitChar (m / 10) :: Nat.digitChar (m % 10) :: []) = some (.thu, h, m) := by
    rw [show parseWeekly ('w' :: 'e' :: 'e' :: 'k' :: 'l' :: 'y' :: ' ' :: 't' :: 'h' :: 'u' :: 'r' :: 's' :: 'd' :: 'a' :: 'y' :: ' ' :: Nat.digitChar (h / 10) :: Nat.digitChar (h % 10) :: ':' :: Nat.digitChar (m / 10) :: Nat.digitChar (m % 10) :: [])
        = (parseHHMMEnd (List.dropWhile pyIsSpace (Nat.digitChar (h / 10) :: Nat.digitChar (h % 10) :: ':' :: Nat.digitChar (m / 10) :: Nat.digitChar (m % 10) :: []))).bind
            (fun p => some (Weekday.thu, p.1, p.2)) from rfl]
    rw [dropWhile_cons_false pyIsSpace _ _ (digit_not_space (h / 10) (by omega))]
    rw [parseHHMM_digits h m (by omega) (by omega)]
    rfl
  unfold parseSchedule
  rw [hlow]
  simp only [hwk]
  rw [cronTrigger_ok_of_valid (some .thu) h m (by omega) (by omega)]

theorem parseSchedule_weekly_fri (h : Nat) (hh : h < 24) (m : Nat)
    (hm : m < 60) :
    parseSchedule (weeklyScheduleStr .fri h m) = .ok (.weekly .fri h m) := by
  have hlow : (pyStrip (weeklyScheduleStr .fri h m)).data.map asciiLower
      = 'w' :: 'e' :: 'e' :: 'k' :: 'l' :: 'y' :: ' ' :: 'f' :: 'r' :: 'i' :: 'd' :: 'a' :: 'y' :: ' ' :: Nat.digitChar (h / 10) :: Nat.digitChar (h % 10) :: ':' :: Nat.digitChar (m / 10) :: Nat.digitChar (m % 10) :: [] := by
    rw [show (pyStrip (weeklyScheduleStr .fri h m)).data
        = (((weeklyScheduleStr .fri h m).data.dropWhile pyIsSpace).reverse.dropWhile
            pyIsSpace).reverse from rfl]
    rw [show ((weeklyScheduleStr .fri h m).data.dropWhile pyIsSpace).reverse
        = Nat.digitChar (m % 10) :: Nat.digitChar (m / 10) :: ':' :: Nat.digitChar (h % 10) :: Nat.digitChar (h / 10) :: ' ' :: 'y' :: 'a' :: 'd' :: 'i' :: 'r' :: 'F' :: ' ' :: 'y' :: 'l' :: 'k' :: 'e' :: 'e' :: 'w' :: [] from rfl]
    rw [dropWhile_cons_false pyIsSpace _ _ (digit_not_space (m % 10) (by omega))]
    rw [show (Nat.digitChar (m % 10) :: Nat.digitChar (m / 10) :: ':' :: Nat.digitChar (h % 10) :: Nat.digitChar (h / 10) :: ' ' :: 'y' :: 'a' :: 'd' :: 'i' :: 'r' :: 'F' :: ' ' :: 'y' :: 'l' :: 'k' :: 'e' :: 'e' :: 'w' :: []).reverse
        = 'w' :: 'e' :: 'e' :: 'k' :: 'l' :: 'y' :: ' ' :: 'F' :: 'r' :: 'i' :: 'd' :: 'a' :: 'y' :: ' ' :: Nat.digitChar (h / 10) :: Nat.digitChar (h % 10) :: ':' :: Nat.digitChar (m / 10) :: Nat.digitChar (m % 10) :: [] from rfl]
    rw [show ('w' :: 'e' :: 'e' :: 'k' :: 'l' :: 'y' :: ' ' :: 'F' :: 'r' :: 'i' :: 'd' :: 'a' :: 'y' :: ' ' :: Nat.digitChar (h / 10) :: Nat.digitChar (h % 10) :: ':' :: Nat.digitChar (m / 10) :: Nat.digitChar (m % 10) :: []).map asciiLower
        = 'w' :: 'e' :: 'e' :: 'k' :: 'l' :: 'y' :: ' ' :: 'f' :: 'r' :: 'i' :: 'd' :: 'a' :: 'y' :: ' ' :: asciiLower (Nat.digitChar (h / 10)) :: asciiLower (Nat.digitChar (h % 10)) :: ':' ::
          asciiLower (Nat.digitChar (m / 10)) :: asciiLower (Nat.digitChar (m % 10)) :: [] from rfl]
    rw [asciiLower_digit _ (by omega : h / 10 < 10),
      asciiLower_digit _ (by omega : h % 10 < 10),
      asciiLower_digit _ (by omega : m / 10 < 10),
      asciiLower_digit _ (by omega : m % 10 < 10)]
  have hwk : parseWeekly ('w' :: 'e' :: 'e' :: 'k' :: 'l' :: 'y' :: ' ' :: 'f' :: 'r' :: 'i' :: 'd' :: 'a' :: 'y' :: ' ' :: Nat.digitChar (h / 10) :: Nat.digitChar (h % 10) :: ':' :: Nat.digitChar (m / 10) :: Nat.digitChar (m % 10) :: []) = some (.fri, h, m) := by
    rw [show parseWeekly ('w' :: 'e' :: 'e' :: 'k' :: 'l' :: 'y' :: ' ' :: 'f' :: 'r' :: 'i' :: 'd' :: 'a' :: 'y' :: ' ' :: Nat.digitChar (h / 10) :: Nat.digitChar (h % 10) :: ':' :: Nat.digitChar (m / 10) :: Nat.digitChar (m % 10) :: [])
        = (parseHHMMEnd (List.dropWhile pyIsSpace (Nat.digitChar (h / 10) :: Nat.digitChar (h % 10) :: ':' :: Nat.digitChar (m / 10) :: Nat.digitChar (m % 10) :: []))).bind
            (fun p => some (Weekday.fri, p.1, p.2)) from rfl]
    rw [dropWhile_cons_false pyIsSpace _ _ (digit_not_space (h / 10) (by omega))]
    rw [parseHHMM_digits h m (by omega) (by omega)]
    rfl
  unfold parseSchedule
  rw [hlow]
  simp only [hwk]
  rw [cronTrigger_ok_of_valid (some .fri) h m (by omega) (by omega)]

theorem parseSchedule_weekly_sat (h : Nat) (hh : h < 24) (m : Nat)
    (hm : m < 60) :
    parseSchedule (weeklyScheduleStr .sat h m) = .ok (.weekly .sat h m) := by
  have hlow : (pyStrip (weeklyScheduleStr .sat h m)).data.map asciiLower
      = 'w' :: 'e' :: 'e' :: 'k' :: 'l' :: 'y' :: ' ' :: 's' :: 'a' :: 't' :: 'u' :: 'r' :: 'd' :: 'a' :: 'y' :: ' ' :: Nat.digitChar (h / 10) :: Nat.digitChar (h % 10) :: ':' :: Nat.digitChar (m / 10) :: Nat.digitChar (m % 10) :: [] := by
    rw [show (pyStrip (weeklyScheduleStr .sat h m)).data
        = (((weeklyScheduleStr .sat h m).data.dropWhile pyIsSpace).reverse.dropWhile
            pyIsSpace).reverse from rfl]
    rw [show ((weeklyScheduleStr .sat h m).data.dropWhile pyIsSpace).reverse
        = Nat.digitChar (m % 10) :: Nat.digitChar (m / 10) :: ':' :: Nat.digitChar (h % 10) :: Nat.digitChar (h / 10) :: ' ' :: 'y' :: 'a' :: 'd' :: 'r' :: 'u' :: 't' :: 'a' :: 'S' :: ' ' :: 'y' :: 'l' :: 'k' :: 'e' :: 'e' :: 'w' :: [] from rfl]
    rw [dropWhile_cons_false pyIsSpace _ _ (digit_not_space (m % 10) (by omega))]
    rw [show (Nat.digitChar (m % 10) :: Nat.digitChar (m / 10) :: ':' :: Nat.digitChar (h % 10) :: Nat.digitChar (h / 10) :: ' ' :: 'y' :: 'a' :: 'd' :: 'r' :: 'u' :: 't' :: 'a' :: 'S' :: ' ' :: 'y' :: 'l' :: 'k' :: 'e' :: 'e' :: 'w' :: []).reverse
        = 'w' :: 'e' :: 'e' :: 'k' :: 'l' :: 'y' :: ' ' :: 'S' :: 'a' :: 't' :: 'u' :: 'r' :: 'd' :: 'a' :: 'y' :: ' ' :: Nat.digitChar (h / 10) :: Nat.digitChar (h % 10) :: ':' :: Nat.digitChar (m / 10) :: Nat.digitChar (m % 10) :: [] from rfl]
    rw [show ('w' :: 'e' :: 'e' :: 'k' :: 'l' :: 'y' :: ' ' :: 'S' :: 'a' :: 't' :: 'u' :: 'r' :: 'd' :: 'a' :: 'y' :: ' ' :: Nat.digitChar (h / 10) :: Nat.digitChar (h % 10) :: ':' :: Nat.digitChar (m / 10) :: Nat.digitChar (m % 10) :: []).map asciiLower
        = 'w' :: 'e' :: 'e' :: 'k' :: 'l' :: 'y' :: ' ' :: 's' :: 'a' :: 't' :: 'u' :: 'r' :: 'd' :: 'a' :: 'y' :: ' ' :: asciiLower (Nat.digitChar (h / 10)) :: asciiLower (Nat.digitChar (h % 10)) :: ':' ::
          asciiLower (Nat.digitChar (m / 10)) :: asciiLower (Nat.digitChar (m % 10)) :: [] from rfl]
    rw [asciiLower_digit _ (by omega : h / 10 < 10),
      asciiLower_digit _ (by omega : h % 10 < 10),
      asciiLower_digit _ (by omega : m / 10 < 10),
      asciiLower_digit _ (by omega : m % 10 < 10)]
  have hwk : parseWeekly ('w' :: 'e' :: 'e' :: 'k' :: 'l' :: 'y' :: ' ' :: 's' :: 'a' :: 't' :: 'u' :: 'r' :: 'd' :: 'a' :: 'y' :: ' ' :: Nat.digitChar (h / 10) :: Nat.digitChar (h % 10) :: ':' :: Nat.digitChar (m / 10) :: Nat.digitChar (m % 10) :: []) = some (.sat, h, m) := by
    rw [show parseWeekly ('w' :: 'e' :: 'e' :: 'k' :: 'l' :: 'y' :: ' ' :: 's' :: 'a' :: 't' :: 'u' :: 'r' :: 'd' :: 'a' :: 'y' :: ' ' :: Nat.digitChar (h / 10) :: Nat.digitChar (h % 10) :: ':' :: Nat.digitChar (m / 10) :: Nat.digitChar (m % 10) :: [])
        = (parseHHMMEnd (List.dropWhile pyIsSpace (Nat.digitChar (h / 10) :: Nat.digitChar (h % 10) :: ':' :: Nat.digitChar (m / 10) :: Nat.digitChar (m % 10) :: []))).bind
            (fun p => some (Weekday.sat, p.1, p.2)) from rfl]
    rw [dropWhile_cons_false pyIsSpace _ _ (digit_not_space (h / 10) (by omega))]
    rw [parseHHMM_digits h m (by omega) (by omega)]
    rfl
  unfold parseSchedule
  rw [hlow]
  simp only [hwk]
  rw [cronTrigger_ok_of_valid (some .sat) h m (by omega) (by omega)]

theorem parseSchedule_weekly_sun (h : Nat) (hh : h < 24) (m : Nat)
    (hm : m < 60) :
    parseSchedule (weeklyScheduleStr .sun h m) = .ok (.weekly .sun h m) := by
  have hlow : (pyStrip (weeklyScheduleStr .sun h m)).data.map asciiLower
      = 'w' :: 'e' :: 'e' :: 'k' :: 'l' :: 'y' :: ' ' :: 's' :: 'u' :: 'n' :: 'd' :: 'a' :: 'y' :: ' ' :: Nat.digitChar (h / 10) :: Nat.digitChar (h % 10) :: ':' :: Nat.digitChar (m / 10) :: Nat.digitChar (m % 10) :: [] := by
    rw [show (pyStrip (weeklyScheduleStr .sun h m)).data
        = (((weeklyScheduleStr .sun h m).data.dropWhile pyIsSpace).reverse.dropWhile
            pyIsSpace).reverse from rfl]
    rw [show ((weeklyScheduleStr .sun h m).data.dropWhile pyIsSpace).reverse
        = Nat.digitChar (m % 10) :: Nat.digitChar (m / 10) :: ':' :: Nat.digitChar (h % 10) :: Nat.digitChar (h / 10) :: ' ' :: 'y' :: 'a' :: 'd' :: 'n' :: 'u' :: 'S' :: ' ' :: 'y' :: 'l' :: 'k' :: 'e' :: 'e' :: 'w' :: [] from rfl]
    rw [dropWhile_cons_false pyIsSpace _ _ (digit_not_space (m % 10) (by omega))]
    rw [show (Nat.digitChar (m % 10) :: Nat.digitChar (m / 10) :: ':' :: Nat.digitChar (h % 10) :: Nat.digitChar (h / 10) :: ' ' :: 'y' :: 'a' :: 'd' :: 'n' :: 'u' :: 'S' :: ' ' :: 'y' :: 'l' :: 'k' :: 'e' :: 'e' :: 'w' :: []).reverse
        = 'w' :: 'e' :: 'e' :: 'k' :: 'l' :: 'y' :: ' ' :: 'S' :: 'u' :: 'n' :: 'd' :: 'a' :: 'y' :: ' ' :: Nat.digitChar (h / 10) :: Nat.digitChar (h % 10) :: ':' :: Nat.digitChar (m / 10) :: Nat.digitChar (m % 10) :: [] from rfl]
    rw [show ('w' :: 'e' :: 'e' :: 'k' :: 'l' :: 'y' :: ' ' :: 'S' :: 'u' :: 'n' :: 'd' :: 'a' :: 'y' :: ' ' :: Nat.digitChar (h / 10) :: Nat.digitChar (h % 10) :: ':' :: Nat.digitChar (m / 10) :: Nat.digitChar (m % 10) :: []).map asciiLower
        = 'w' :: 'e' :: 'e' :: 'k' :: 'l' :: 'y' :: ' ' :: 's' :: 'u' :: 'n' :: 'd' :: 'a' :: 'y' :: ' ' :: asciiLower (Nat.digitChar (h / 10)) :: asciiLower (Nat.digitChar (h % 10)) :: ':' ::
          asciiLower (Nat.digitChar (m / 10)) :: asciiLower (Nat.digitChar (m % 10)) :: [] from rfl]
    rw [asciiLower_digit _ (by omega : h / 10 < 10),
      asciiLower_digit _ (by omega : h % 10 < 10),
      asciiLower_digit _ (by omega : m / 10 < 10),
      asciiLower_digit _ (by omega : m % 10 < 10)]
  have hwk : parseWeekly ('w' :: 'e' :: 'e' :: 'k' :: 'l' :: 'y' :: ' ' :: 's' :: 'u' :: 'n' :: 'd' :: 'a' :: 'y' :: ' ' :: Nat.digitChar (h / 10) :: Nat.digitChar (h % 10) :: ':' :: Nat.digitChar (m / 10) :: Nat.digitChar (m % 10) :: []) = some (.sun, h, m) := by
    rw [show parseWeekly ('w' :: 'e' :: 'e' :: 'k' :: 'l' :: 'y' :: ' ' :: 's' :: 'u' :: 'n' :: 'd' :: 'a' :: 'y' :: ' ' :: Nat.digitChar (h / 10) :: Nat.digitChar (h % 10) :: ':' :: Nat.digitChar (m / 10) :: Nat.digitChar (m % 10) :: [])
        = (parseHHMMEnd (List.dropWhile pyIsSpace (Nat.digitChar (h / 10) :: Nat.digitChar (h % 10) :: ':' :: Nat.digitChar (m / 10) :: Nat.digitChar (m % 10) :: []))).bind
            (fun p => some (Weekday.sun, p.1, p.2)) from rfl]
    rw [dropWhile_cons_false pyIsSpace _ _ (digit_not_space (h / 10) (by omega))]
    rw [parseHHMM_digits h m (by omega) (by omega)]
    rfl
  unfold parseSchedule
  rw [hlow]
  simp only [hwk]
  rw [cronTrigger_ok_of_valid (some .sun) h m (by omega) (by omega)]

theorem addJobReplace_keys (tb : List (String × APTrigger)) (key : String)
    (t : APTrigger) (k : String)
    (h : k ∈ (addJobReplace tb key t).map Prod.fst) :
    k ∈ tb.map Prod.fst ∨ k = key := by
  unfold addJobReplace at h
  split at h
  case isTrue hany =>
    rw [List.map_map] at h
    rcases List.mem_map.mp h with ⟨e, he, heq⟩
    by_cases hek : (e.1 == key) = true
    · right
      simp only [Function.comp_apply, hek, if_true] at heq
      exact heq.symm
    · left
      simp only [Function.comp_apply, hek, if_false] at heq
      exact List.mem_map.mpr ⟨e, he, heq⟩
  case isFalse hany =>
    rw [List.map_append] at h
    rcases List.mem_append.mp h with h' | h'
    · exact Or.inl h'
    · right
      simpa using h'

theorem loadRegistration_keys (cfg : List (BackupJob × String)) :
    ∀ (tb : List (String × APTrigger)) (k : String),
      k ∈ ((cfg.foldl (fun tb p =>
        if p.2 = "" then tb
        else
          match parseSchedule p.2 with
          | .error _ => tb
          | .ok trig => addJobReplace tb p.1.name (.cron trig)) tb).map Prod.fst) →
      k ∈ tb.map Prod.fst ∨
        ∃ j s, (j, s) ∈ cfg ∧ j.name = k ∧ s ≠ "" ∧
          ∃ t, parseSchedule s = .ok t := by
  induction cfg with
  | nil => intro tb k h; exact Or.inl h
  | cons p rest ih =>
    intro tb k h
    rw [List.foldl_cons] at h
    by_cases hp : p.2 = ""
    · rw [if_pos hp] at h
      rcases ih tb k h with h' | ⟨j, s, hm, hn, hs, ht⟩
      · exact Or.inl h'
      · exact Or.inr ⟨j, s, List.mem_cons_of_mem _ hm, hn, hs, ht⟩
    · rw [if_neg hp] at h
      cases hps : parseSchedule p.2 with
      | error e =>
        simp only [hps] at h
        rcases ih tb k h with h' | ⟨j, s, hm, hn, hs, ht⟩
        · exact Or.inl h'
        · exact Or.inr ⟨j, s, List.mem_cons_of_mem _ hm, hn, hs, ht⟩
      | ok trig =>
        simp only [hps] at h
        rcases ih _ k h with h' | ⟨j, s, hm, hn, hs, ht⟩
        · rcases addJobReplace_keys tb p.1.name (.cron trig) k h' with h'' | rfl
          · exact Or.inl h''
          · exact Or.inr ⟨p.1, p.2, List.mem_cons_self _ _, rfl, hp, trig, hps⟩
        · exact Or.inr ⟨j, s, List.mem_cons_of_mem _ hm, hn, hs, ht⟩

theorem cronTrigger_ok_inv (dow : Option Weekday) (hh mm : Nat) (t : Trigger)
    (h : cronTrigger dow hh mm = .ok t) :
    hh ≤ 23 ∧ mm ≤ 59 ∧
      ((∃ d, dow = some d ∧ t = .weekly d hh mm) ∨
        (dow = none ∧ t = .daily hh mm)) := by
  unfold cronTrigger at h
  split at h
  case isTrue hc =>
    cases dow with
    | some d =>
      injection h with h2
      exact ⟨hc.1, hc.2, Or.inl ⟨d, rfl, h2.symm⟩⟩
    | none =>
      injection h with h2
      exact ⟨hc.1, hc.2, Or.inr ⟨rfl, h2.symm⟩⟩
  case isFalse hc =>
    cases h

/-- Claim C8: parse_schedule maps every canonical "daily HH:MM" string
(hour below 24, minute below 60) to a daily trigger at that hour and
minute, maps every canonical "weekly Day HH:MM" string to a weekly
trigger at that hour and minute on the matching weekday, raises a
ValueError on other strings — exemplified on the spec's
"every tuesday at noon", and guaranteed structurally: every successful
parse yields only a range-valid daily or weekly trigger — and a job
whose raw schedule string is absent (empty) or unparseable is still
placed in the scheduler's held job list by load_jobs_from_config but
its name gets no trigger registration (loading into a fresh
scheduler, with no same-named sibling carrying a parseable schedule). -/
theorem C8_schedule_grammar :
    (∀ h : Nat, h < 24 → ∀ m : Nat, m < 60 →
      parseSchedule (dailyScheduleStr h m) = .ok (.daily h m)) ∧
    (∀ d : Weekday, ∀ h : Nat, h < 24 → ∀ m : Nat, m < 60 →
      parseSchedule (weeklyScheduleStr d h m) = .ok (.weekly d h m)) ∧
    (∃ e, parseSchedule "every tuesday at noon" = .error e) ∧
    (∀ (s : String) (t : Trigger), parseSchedule s = .ok t →
      (∃ hh mm, t = .daily hh mm ∧ hh ≤ 23 ∧ mm ≤ 59) ∨
      (∃ d hh mm, t = .weekly d hh mm ∧ hh ≤ 23 ∧ mm ≤ 59)) ∧
    (∀ (cfg : List (BackupJob × String)) (job : BackupJob) (sched : String),
      (job, sched) ∈ cfg →
      job ∈ (loadJobsFromConfig ⟨[], []⟩ cfg).jobs ∧
      ((∀ j s, (j, s) ∈ cfg → BackupJob.name j = job.name →
          s = "" ∨ ∀ t, parseSchedule s ≠ .ok t) →
        job.name ∉ (loadJobsFromConfig ⟨[], []⟩ cfg).table.map Prod.fst)) := by
  refine ⟨?_, ?_, ⟨_, rfl⟩, ?_, ?_⟩
  · exact parseSchedule_daily_canonical
  · intro d
    cases d
    case mon => exact parseSchedule_weekly_mon
    case tue => exact parseSchedule_weekly_tue
    case wed => exact parseSchedule_weekly_wed
    case thu => exact parseSchedule_weekly_thu
    case fri => exact parseSchedule_weekly_fri
    case sat => exact parseSchedule_weekly_sat
    case sun => exact parseSchedule_weekly_sun
  · intro s t h
    unfold parseSchedule at h
    cases hw : parseWeekly ((pyStrip s).data.map asciiLower) with
    | some v =>
      obtain ⟨d, hh, mm⟩ := v
      simp only [hw] at h
      rcases cronTrigger_ok_inv (some d) hh mm t h with ⟨h1, h2, h3 | h3⟩
      · obtain ⟨d', hd', ht⟩ := h3
        exact Or.inr ⟨d', hh, mm, ht, h1, h2⟩
      · exact absurd h3.1 (by simp)
    | none =>
      simp only [hw] at h
      cases hd : parseDaily ((pyStrip s).data.map asciiLower) with
      | some v =>
        obtain ⟨hh, mm⟩ := v
        simp only [hd] at h
        rcases cronTrigger_ok_inv none hh mm t h with ⟨h1, h2, h3 | h3⟩
        · obtain ⟨d', hd', ht⟩ := h3
          exact absurd hd' (by simp)
        · exact Or.inl ⟨hh, mm, h3.2, h1, h2⟩
      | none =>
        simp only [hd] at h
        cases h
  · intro cfg job sched hmem
    constructor
    · exact List.mem_map.mpr ⟨(job, sched), hmem, rfl⟩
    · intro hall hko
      rcases loadRegistration_keys cfg [] job.name hko with h' | ⟨j, s2, hm2, hn2, hs2, t, ht⟩
      · simp at h'
      · rcases hall j s2 hm2 hn2 with rfl | hfail
        · exact hs2 rfl
        · exact hfail t ht

/-- Claim C8, witness: the spec's three examples plus the load
behaviour on a two-job config — "daily 03:00" parses to the daily 3:00
trigger, "weekly Sunday 02:30" to the weekly Sunday 2:30 trigger,
"every tuesday at noon" is a parse error, and loading jobs "a" (daily
schedule) and "b" (schedule "nonsense") holds both jobs but registers
only "a". -/
theorem C8_schedule_grammar_witness :
    parseSchedule "daily 03:00" = .ok (.daily 3 0) ∧
    parseSchedule "weekly Sunday 02:30" = .ok (.weekly .sun 2 30) ∧
    (∃ e, parseSchedule "every tuesday at noon" = .error e) ∧
    (({ name := "b", target_host := "h" } : BackupJob) ∈
      (loadJobsFromConfig ⟨[], []⟩
        [({ name := "a", target_host := "h" }, "daily 03:00"),
         ({ name := "b", target_host := "h" }, "nonsense")]).jobs ∧
      "b" ∉ (loadJobsFromConfig ⟨[], []⟩
        [({ name := "a", target_host := "h" }, "daily 03:00"),
         ({ name := "b", target_host := "h" }, "nonsense")]).table.map Prod.fst) := by
  have h := C8_schedule_grammar
  refine ⟨h.1 3 (by decide) 0 (by decide), h.2.1 .sun 2 (by decide) 30 (by decide),
    h.2.2.1, ?_⟩
  have h5 := h.2.2.2.2
    [({ name := "a", target_host := "h" }, "daily 03:00"),
     ({ name := "b", target_host := "h" }, "nonsense")]
    { name := "b", target_host := "h" } "nonsense" (by simp)
  refine ⟨h5.1, h5.2 ?_⟩
  intro j s hm hn
  simp only [List.mem_cons, List.not_mem_nil, or_false] at hm
  rcases hm with hm | hm
  · exfalso
    have hj : j = { name := "a", target_host := "h" } := congrArg Prod.fst hm
    rw [hj] at hn
    exact absurd hn (by decide)
  · have hs : s = "nonsense" := congrArg Prod.snd hm
    subst hs
    right
    intro t ht
    rw [show parseSchedule "nonsense" =
      .error "Unrecognized schedule format: nonsense. Expected daily HH:MM or weekly Day HH:MM." from rfl] at ht
    cases ht

end Hozo
